import Mathlib

/-!
Verification of the FHE operation event decoder of the coprocessor
(`coprocessor/src/events/parser.rs`, `signatures.rs`, `types.rs`).

Conventions of the embedding:
* a byte is a `Nat` (< 256 in well-formed data); byte buffers are `List Nat`;
* `B256` values (topics, handles, hashes) are 32-byte lists; addresses are
  20-byte lists; `U256` values read from big-endian words are plain `Nat`;
* `usize` is 64 bits wide; arithmetic on it wraps at `2 ^ 64` and
  `U256::to::<usize>()` aborts when the value does not fit, exactly as in
  release-mode Rust, so the one parser that can abort returns a `Panics`
  value making those aborts explicit;
* Keccak-256 (`alloy::primitives::keccak256`) is embedded as the standard
  algorithm (rate 1088 bits, capacity 512 bits, original 0x01 domain
  padding), with the 25-lane state packed into one natural number, lane
  (x, y) occupying bits 64·(x + 5y) .. 64·(x + 5y) + 63.
-/

set_option maxRecDepth 1000000

namespace FheEv

/-- Byte slice `l[a..b]`, as Rust slice indexing when the range is valid. -/
def slice (l : List Nat) (a b : Nat) : List Nat := (l.drop a).take (b - a)

/-- Big-endian value of a byte list (`U256::from_be_slice`). -/
def beNat (bs : List Nat) : Nat := bs.foldl (fun a b => a * 256 + b) 0

/-- Little-endian value of a byte list (Keccak rate-block loading). -/
def leNat (bs : List Nat) : Nat := bs.foldr (fun b a => b + 256 * a) 0

/-- Rotate a 64-bit lane left by `n` (with 0 ≤ n < 64). -/
def rotl64 (x n : Nat) : Nat := ((x <<< n) % (2 ^ 64)) ||| (x >>> (64 - n))

/-- Lane (x, y) of a packed Keccak state, at index i = x + 5y. -/
def lane (s i : Nat) : Nat := (s >>> (64 * i)) % (2 ^ 64)

/-- Keccak ι round constants. -/
def keccakRC : List Nat :=
  [1, 32898, 9223372036854808714, 9223372039002292224, 32907, 2147483649, 9223372039002292353,
   9223372036854808585, 138, 136, 2147516425, 2147483658, 2147516555, 9223372036854775947,
   9223372036854808713, 9223372036854808579, 9223372036854808578, 9223372036854775936, 32778,
   9223372039002259466, 9223372039002292353, 9223372036854808704, 2147483649, 9223372039002292232]

/-- One Keccak-f[1600] round (θ, ρ, π, χ, ι) on the packed state, written
out lane by lane.  The ρ offsets and the π lane permutation are the
standard ones; `b i` is the lane that χ combines. -/
def keccakRound (s r : Nat) : Nat :=
  let a0 := lane s 0
  let a1 := lane s 1
  let a2 := lane s 2
  let a3 := lane s 3
  let a4 := lane s 4
  let a5 := lane s 5
  let a6 := lane s 6
  let a7 := lane s 7
  let a8 := lane s 8
  let a9 := lane s 9
  let a10 := lane s 10
  let a11 := lane s 11
  let a12 := lane s 12
  let a13 := lane s 13
  let a14 := lane s 14
  let a15 := lane s 15
  let a16 := lane s 16
  let a17 := lane s 17
  let a18 := lane s 18
  let a19 := lane s 19
  let a20 := lane s 20
  let a21 := lane s 21
  let a22 := lane s 22
  let a23 := lane s 23
  let a24 := lane s 24
  let c0 := (((a0 ^^^ a5) ^^^ (a10 ^^^ a15)) ^^^ a20)
  let c1 := (((a1 ^^^ a6) ^^^ (a11 ^^^ a16)) ^^^ a21)
  let c2 := (((a2 ^^^ a7) ^^^ (a12 ^^^ a17)) ^^^ a22)
  let c3 := (((a3 ^^^ a8) ^^^ (a13 ^^^ a18)) ^^^ a23)
  let c4 := (((a4 ^^^ a9) ^^^ (a14 ^^^ a19)) ^^^ a24)
  let d0 := c4 ^^^ (rotl64 c1 1)
  let d1 := c0 ^^^ (rotl64 c2 1)
  let d2 := c1 ^^^ (rotl64 c3 1)
  let d3 := c2 ^^^ (rotl64 c4 1)
  let d4 := c3 ^^^ (rotl64 c0 1)
  let b0 := a0 ^^^ d0
  let b1 := rotl64 (a6 ^^^ d1) 44
  let b2 := rotl64 (a12 ^^^ d2) 43
  let b3 := rotl64 (a18 ^^^ d3) 21
  let b4 := rotl64 (a24 ^^^ d4) 14
  let b5 := rotl64 (a3 ^^^ d3) 28
  let b6 := rotl64 (a9 ^^^ d4) 20
  let b7 := rotl64 (a10 ^^^ d0) 3
  let b8 := rotl64 (a16 ^^^ d1) 45
  let b9 := rotl64 (a22 ^^^ d2) 61
  let b10 := rotl64 (a1 ^^^ d1) 1
  let b11 := rotl64 (a7 ^^^ d2) 6
  let b12 := rotl64 (a13 ^^^ d3) 25
  let b13 := rotl64 (a19 ^^^ d4) 8
  let b14 := rotl64 (a20 ^^^ d0) 18
  let b15 := rotl64 (a4 ^^^ d4) 27
  let b16 := rotl64 (a5 ^^^ d0) 36
  let b17 := rotl64 (a11 ^^^ d1) 10
  let b18 := rotl64 (a17 ^^^ d2) 15
  let b19 := rotl64 (a23 ^^^ d3) 56
  let b20 := rotl64 (a2 ^^^ d2) 62
  let b21 := rotl64 (a8 ^^^ d3) 55
  let b22 := rotl64 (a14 ^^^ d4) 39
  let b23 := rotl64 (a15 ^^^ d0) 41
  let b24 := rotl64 (a21 ^^^ d1) 2
  let e0 := b0 ^^^ ((b1 ^^^ (2 ^ 64 - 1)) &&& b2)
  let e1 := b1 ^^^ ((b2 ^^^ (2 ^ 64 - 1)) &&& b3)
  let e2 := b2 ^^^ ((b3 ^^^ (2 ^ 64 - 1)) &&& b4)
  let e3 := b3 ^^^ ((b4 ^^^ (2 ^ 64 - 1)) &&& b0)
  let e4 := b4 ^^^ ((b0 ^^^ (2 ^ 64 - 1)) &&& b1)
  let e5 := b5 ^^^ ((b6 ^^^ (2 ^ 64 - 1)) &&& b7)
  let e6 := b6 ^^^ ((b7 ^^^ (2 ^ 64 - 1)) &&& b8)
  let e7 := b7 ^^^ ((b8 ^^^ (2 ^ 64 - 1)) &&& b9)
  let e8 := b8 ^^^ ((b9 ^^^ (2 ^ 64 - 1)) &&& b5)
  let e9 := b9 ^^^ ((b5 ^^^ (2 ^ 64 - 1)) &&& b6)
  let e10 := b10 ^^^ ((b11 ^^^ (2 ^ 64 - 1)) &&& b12)
  let e11 := b11 ^^^ ((b12 ^^^ (2 ^ 64 - 1)) &&& b13)
  let e12 := b12 ^^^ ((b13 ^^^ (2 ^ 64 - 1)) &&& b14)
  let e13 := b13 ^^^ ((b14 ^^^ (2 ^ 64 - 1)) &&& b10)
  let e14 := b14 ^^^ ((b10 ^^^ (2 ^ 64 - 1)) &&& b11)
  let e15 := b15 ^^^ ((b16 ^^^ (2 ^ 64 - 1)) &&& b17)
  let e16 := b16 ^^^ ((b17 ^^^ (2 ^ 64 - 1)) &&& b18)
  let e17 := b17 ^^^ ((b18 ^^^ (2 ^ 64 - 1)) &&& b19)
  let e18 := b18 ^^^ ((b19 ^^^ (2 ^ 64 - 1)) &&& b15)
  let e19 := b19 ^^^ ((b15 ^^^ (2 ^ 64 - 1)) &&& b16)
  let e20 := b20 ^^^ ((b21 ^^^ (2 ^ 64 - 1)) &&& b22)
  let e21 := b21 ^^^ ((b22 ^^^ (2 ^ 64 - 1)) &&& b23)
  let e22 := b22 ^^^ ((b23 ^^^ (2 ^ 64 - 1)) &&& b24)
  let e23 := b23 ^^^ ((b24 ^^^ (2 ^ 64 - 1)) &&& b20)
  let e24 := b24 ^^^ ((b20 ^^^ (2 ^ 64 - 1)) &&& b21)
  ((((((((((((((((((((((((((e0 ^^^ (keccakRC.getD r 0)) ||| (e1 <<< 64)) ||| (e2 <<< 128)) ||| (e3 <<< 192)) ||| (e4 <<< 256)) ||| (e5 <<< 320)) ||| (e6 <<< 384)) ||| (e7 <<< 448)) ||| (e8 <<< 512)) ||| (e9 <<< 576)) ||| (e10 <<< 640)) ||| (e11 <<< 704)) ||| (e12 <<< 768)) ||| (e13 <<< 832)) ||| (e14 <<< 896)) ||| (e15 <<< 960)) ||| (e16 <<< 1024)) ||| (e17 <<< 1088)) ||| (e18 <<< 1152)) ||| (e19 <<< 1216)) ||| (e20 <<< 1280)) ||| (e21 <<< 1344)) ||| (e22 <<< 1408)) ||| (e23 <<< 1472)) ||| (e24 <<< 1536)))

/-- Reduce `n` to a numeral before passing it on (keeps kernel evaluation
of the 24-round iteration shallow; `forceNat n k = k n`). -/
def forceNat (n : Nat) (k : Nat → Nat) : Nat := Nat.casesOn n (k 0) (fun m => k (m + 1))

/-- Iterate `fuel` Keccak rounds starting at round index `r`. -/
def keccakIter : Nat → Nat → Nat → Nat
  | 0, _, s => s
  | f + 1, r, s => forceNat (keccakRound s r) (keccakIter f (r + 1))

/-- The Keccak-f[1600] permutation: 24 rounds. -/
def keccakF (s : Nat) : Nat := keccakIter 24 0 s

/-- Keccak multi-rate padding (pad10*1) for rate 136 bytes with the 0x01
domain byte of the original Keccak (as used on Ethereum). -/
def keccakPad (msg : List Nat) : List Nat :=
  let z := 136 - msg.length % 136
  if z = 1 then msg ++ [0x81] else msg ++ 0x01 :: (List.replicate (z - 2) 0 ++ [0x80])

/-- Keccak-256 of a byte message: pad, absorb each 136-byte rate block
(little-endian bytes land exactly on the packed lane layout), squeeze the
first 32 bytes of the final state. -/
def keccak256Bytes (msg : List Nat) : List Nat :=
  let p := keccakPad msg
  let s := (List.range (p.length / 136)).foldl
    (fun st i => keccakF (st ^^^ (leNat (slice p (136 * i) (136 * i + 136))))) 0
  (List.range 32).map (fun i => (s >>> (8 * i)) % 256)

/-- Keccak-256 of the UTF-8 bytes of a string (every signature string is
ASCII); this is `event_sig` in `signatures.rs`. -/
def keccakStr (s : String) : List Nat := keccak256Bytes (s.data.map (fun c => c.toNat))

/-- The twelve FHE type tags (`FheType` in `types.rs`). -/
inductive FheType where
  | Bool
  | Uint4
  | Uint8
  | Uint16
  | Uint32
  | Uint64
  | Uint128
  | Uint160
  | Uint256
  | Bytes64
  | Bytes128
  | Bytes256
deriving DecidableEq

/-- `FheType::from_u8`: tag byte to type, failing on any byte ≥ 12. -/
def FheType.from_u8 : Nat → Option FheType
  | 0 => some FheType.Bool
  | 1 => some FheType.Uint4
  | 2 => some FheType.Uint8
  | 3 => some FheType.Uint16
  | 4 => some FheType.Uint32
  | 5 => some FheType.Uint64
  | 6 => some FheType.Uint128
  | 7 => some FheType.Uint160
  | 8 => some FheType.Uint256
  | 9 => some FheType.Bytes64
  | 10 => some FheType.Bytes128
  | 11 => some FheType.Bytes256
  | _ => none

/-- `FheType::name`: canonical short names. -/
def FheType.name : FheType → String
  | FheType.Bool => "ebool"
  | FheType.Uint4 => "euint4"
  | FheType.Uint8 => "euint8"
  | FheType.Uint16 => "euint16"
  | FheType.Uint32 => "euint32"
  | FheType.Uint64 => "euint64"
  | FheType.Uint128 => "euint128"
  | FheType.Uint160 => "eaddress"
  | FheType.Uint256 => "euint256"
  | FheType.Bytes64 => "ebytes64"
  | FheType.Bytes128 => "ebytes128"
  | FheType.Bytes256 => "ebytes256"

/-- The twenty binary operation kinds (`BinaryOpType` in `types.rs`). -/
inductive BinaryOpType where
  | Add
  | Sub
  | Mul
  | Div
  | Rem
  | BitAnd
  | BitOr
  | BitXor
  | Shl
  | Shr
  | Rotl
  | Rotr
  | Eq
  | Ne
  | Ge
  | Gt
  | Le
  | Lt
  | Min
  | Max
deriving DecidableEq

/-- The two unary operation kinds (`UnaryOpType` in `types.rs`). -/
inductive UnaryOpType where
  | Neg
  | Not
deriving DecidableEq

/-- `EventMetadata` in `types.rs`: block number, optional transaction hash,
log index, caller address (20 bytes). -/
structure EventMetadata where
  block_number : Nat
  tx_hash : Option (List Nat)
  log_index : Nat
  caller : List Nat
deriving DecidableEq

/-- `BinaryOp` in `types.rs`. -/
structure BinaryOp where
  metadata : EventMetadata
  op_type : BinaryOpType
  lhs : List Nat
  rhs : List Nat
  scalar_byte : Nat
  result : List Nat
deriving DecidableEq

/-- `UnaryOp` in `types.rs`. -/
structure UnaryOp where
  metadata : EventMetadata
  op_type : UnaryOpType
  ct : List Nat
  result : List Nat
deriving DecidableEq

/-- `TrivialEncrypt` in `types.rs`. -/
structure TrivialEncrypt where
  metadata : EventMetadata
  plaintext : Nat
  to_type : FheType
  result : List Nat
deriving DecidableEq

/-- `Cast` in `types.rs`. -/
structure Cast where
  metadata : EventMetadata
  ct : List Nat
  to_type : FheType
  result : List Nat
deriving DecidableEq

/-- `IfThenElse` in `types.rs`. -/
structure IfThenElse where
  metadata : EventMetadata
  control : List Nat
  if_true : List Nat
  if_false : List Nat
  result : List Nat
deriving DecidableEq

/-- `VerifyInput` in `types.rs`. -/
structure VerifyInput where
  metadata : EventMetadata
  input_handle : List Nat
  user_address : List Nat
  input_proof : List Nat
  input_type : FheType
  result : List Nat
deriving DecidableEq

/-- `FheRand` in `types.rs`. -/
structure FheRand where
  metadata : EventMetadata
  rand_type : FheType
  seed : List Nat
  result : List Nat
deriving DecidableEq

/-- `FheRandBounded` in `types.rs`. -/
structure FheRandBounded where
  metadata : EventMetadata
  upper_bound : Nat
  rand_type : FheType
  seed : List Nat
  result : List Nat
deriving DecidableEq

/-- `FheOperation` in `types.rs`: one variant per operation kind plus
`Unknown { topic0, data }`. -/
inductive FheOperation where
  | Binary (op : BinaryOp)
  | Unary (op : UnaryOp)
  | TrivialEncrypt (op : TrivialEncrypt)
  | Cast (op : Cast)
  | IfThenElse (op : IfThenElse)
  | VerifyInput (op : VerifyInput)
  | Rand (op : FheRand)
  | RandBounded (op : FheRandBounded)
  | Unknown (topic0 : List Nat) (data : List Nat)
deriving DecidableEq

/-- `FheOperation::caller` in `types.rs`: the metadata caller, `none` for
`Unknown`. -/
def FheOperation.caller : FheOperation → Option (List Nat)
  | FheOperation.Binary op => some op.metadata.caller
  | FheOperation.Unary op => some op.metadata.caller
  | FheOperation.TrivialEncrypt op => some op.metadata.caller
  | FheOperation.Cast op => some op.metadata.caller
  | FheOperation.IfThenElse op => some op.metadata.caller
  | FheOperation.VerifyInput op => some op.metadata.caller
  | FheOperation.Rand op => some op.metadata.caller
  | FheOperation.RandBounded op => some op.metadata.caller
  | FheOperation.Unknown _ _ => none

/-- Model accessor: the metadata record carried by a non-Unknown operation
(each variant stores the `EventMetadata` the parser was given). -/
def operationMetadata : FheOperation → Option EventMetadata
  | FheOperation.Binary op => some op.metadata
  | FheOperation.Unary op => some op.metadata
  | FheOperation.TrivialEncrypt op => some op.metadata
  | FheOperation.Cast op => some op.metadata
  | FheOperation.IfThenElse op => some op.metadata
  | FheOperation.VerifyInput op => some op.metadata
  | FheOperation.Rand op => some op.metadata
  | FheOperation.RandBounded op => some op.metadata
  | FheOperation.Unknown _ _ => none

/-- Outcome of running a Rust function that may abort: either a value or a
process abort (`panic`). -/
inductive Panics (α : Type) where
  | panicked : Panics α
  | ok : α → Panics α
deriving DecidableEq

/-- The raw log record handed to the decoder (`alloy::rpc::types::Log`
restricted to the fields `parse_fhe_event` reads). -/
structure Log where
  topics : List (List Nat)
  data : List Nat
  block_number : Option Nat
  transaction_hash : Option (List Nat)
  log_index : Option Nat
deriving DecidableEq

/-- `keccak256` of `"FheAdd(address,bytes32,bytes32,bytes1,bytes32)"` (certified below). -/
def FHE_ADD : List Nat :=
  [0xdb, 0x90, 0x50, 0xd6, 0x52, 0x40, 0x43, 0x16, 0x21, 0xd6, 0x1d, 0x6f, 0x94, 0xb9, 0x70, 0xe6, 0x3f, 0x53, 0xa6, 0x7a, 0x57, 0x66, 0x61, 0x4e, 0xe6, 0xe5, 0xc5, 0xbb, 0xd4, 0x1c, 0x8e, 0x2e]

/-- `keccak256` of `"FheSub(address,bytes32,bytes32,bytes1,bytes32)"` (certified below). -/
def FHE_SUB : List Nat :=
  [0xeb, 0x6d, 0x37, 0xbd, 0x27, 0x1a, 0xbe, 0x13, 0x95, 0xb2, 0x1d, 0x6d, 0x78, 0xf3, 0x48, 0x7d, 0x65, 0x84, 0x86, 0x28, 0x72, 0xc2, 0x9f, 0xfd, 0x3f, 0x90, 0x73, 0x6e, 0xe9, 0x9b, 0x73, 0x93]

/-- `keccak256` of `"FheMul(address,bytes32,bytes32,bytes1,bytes32)"` (certified below). -/
def FHE_MUL : List Nat :=
  [0x21, 0x53, 0x46, 0xa4, 0xf9, 0xf9, 0x75, 0xe6, 0xd5, 0x48, 0x4e, 0x29, 0x0b, 0xd4, 0xe5, 0x3c, 0xa1, 0x44, 0x53, 0xa9, 0xd2, 0x82, 0xeb, 0xd3, 0xcc, 0xed, 0xb2, 0xa0, 0xf1, 0x71, 0x75, 0x3d]

/-- `keccak256` of `"FheDiv(address,bytes32,bytes32,bytes1,bytes32)"` (certified below). -/
def FHE_DIV : List Nat :=
  [0x3b, 0xab, 0x2e, 0xe0, 0xe2, 0xf9, 0x0f, 0x46, 0x90, 0xc6, 0xa8, 0x7b, 0xf6, 0x3c, 0xf1, 0xa6, 0xb6, 0x26, 0x08, 0x6e, 0x95, 0xf2, 0x31, 0x86, 0x0b, 0x15, 0x29, 0x66, 0xe8, 0xda, 0xbb, 0xf7]

/-- `keccak256` of `"FheRem(address,bytes32,bytes32,bytes1,bytes32)"` (certified below). -/
def FHE_REM : List Nat :=
  [0x0e, 0x69, 0x1c, 0xd0, 0xbf, 0x8c, 0x4e, 0x93, 0x08, 0xe4, 0xce, 0xd1, 0xbb, 0x9c, 0x96, 0x41, 0x17, 0xdc, 0x5c, 0x5b, 0xb9, 0xb9, 0xab, 0x5b, 0xdf, 0xeb, 0xf2, 0xc9, 0xb1, 0x3a, 0x89, 0x7c]

/-- `keccak256` of `"FheBitAnd(address,bytes32,bytes32,bytes1,bytes32)"` (certified below). -/
def FHE_BIT_AND : List Nat :=
  [0xe4, 0x24, 0x86, 0xb0, 0xcc, 0xdb, 0xef, 0x81, 0xa2, 0x07, 0x5c, 0x48, 0xc8, 0xe5, 0x15, 0xc0, 0x79, 0xae, 0xa7, 0x3c, 0x8b, 0x82, 0x42, 0x99, 0x97, 0xc7, 0x2a, 0x2f, 0xe1, 0xbf, 0x4f, 0xef]

/-- `keccak256` of `"FheBitOr(address,bytes32,bytes32,bytes1,bytes32)"` (certified below). -/
def FHE_BIT_OR : List Nat :=
  [0x56, 0xdf, 0x27, 0x9b, 0xbf, 0xb0, 0x3d, 0x9e, 0xd0, 0x97, 0xbb, 0xe2, 0xf2, 0x8d, 0x52, 0x0c, 0xa0, 0xc1, 0x16, 0x12, 0x06, 0x32, 0x79, 0x26, 0xe9, 0x86, 0x64, 0xd7, 0x0d, 0x2c, 0x24, 0xc4]

/-- `keccak256` of `"FheBitXor(address,bytes32,bytes32,bytes1,bytes32)"` (certified below). -/
def FHE_BIT_XOR : List Nat :=
  [0x4d, 0x32, 0x28, 0x4b, 0xd3, 0x19, 0x3e, 0xca, 0xa4, 0x4e, 0x1c, 0xec, 0xa3, 0x2f, 0x41, 0xc5, 0xd6, 0xc3, 0x28, 0x03, 0xa9, 0x2e, 0x07, 0x96, 0x7d, 0xd3, 0xee, 0x42, 0x29, 0x72, 0x15, 0x82]

/-- `keccak256` of `"FheShl(address,bytes32,bytes32,bytes1,bytes32)"` (certified below). -/
def FHE_SHL : List Nat :=
  [0xe8, 0x42, 0x82, 0xaa, 0xeb, 0xcc, 0xa6, 0x98, 0x44, 0x3e, 0x39, 0xa2, 0xa9, 0x48, 0xa3, 0x45, 0xd0, 0xd2, 0xeb, 0xc6, 0x54, 0xaf, 0x5c, 0xb6, 0x57, 0xa2, 0xd7, 0xe8, 0x05, 0x3b, 0xf6, 0xcb]

/-- `keccak256` of `"FheShr(address,bytes32,bytes32,bytes1,bytes32)"` (certified below). -/
def FHE_SHR : List Nat :=
  [0x32, 0x42, 0x20, 0xbf, 0xc9, 0xcb, 0x15, 0x8b, 0x49, 0x29, 0x91, 0xc0, 0x3c, 0x30, 0x9c, 0xd8, 0x6e, 0x53, 0x45, 0xca, 0xc4, 0x5a, 0xac, 0xae, 0x20, 0x92, 0xdd, 0xab, 0xe3, 0x1f, 0xa3, 0xd8]

/-- `keccak256` of `"FheRotl(address,bytes32,bytes32,bytes1,bytes32)"` (certified below). -/
def FHE_ROTL : List Nat :=
  [0xeb, 0x0e, 0x4f, 0x8d, 0xc7, 0x40, 0x58, 0x19, 0x4d, 0x06, 0x02, 0x42, 0x5f, 0xe6, 0x02, 0xf9, 0x55, 0xc2, 0x22, 0x20, 0x0f, 0x7f, 0x10, 0xc6, 0xfe, 0x67, 0x99, 0x2f, 0x7b, 0x24, 0xc7, 0xe9]

/-- `keccak256` of `"FheRotr(address,bytes32,bytes32,bytes1,bytes32)"` (certified below). -/
def FHE_ROTR : List Nat :=
  [0xc1, 0x48, 0x67, 0x59, 0x05, 0xd0, 0x7a, 0xd5, 0x49, 0x6f, 0x8e, 0xf4, 0xd8, 0x19, 0x5c, 0x90, 0x75, 0x03, 0xf3, 0xec, 0x12, 0xfd, 0x10, 0xed, 0x5f, 0x21, 0x24, 0x0a, 0xbc, 0x69, 0x36, 0x34]

/-- `keccak256` of `"FheEq(address,bytes32,bytes32,bytes1,bytes32)"` (certified below). -/
def FHE_EQ : List Nat :=
  [0xb3, 0xd5, 0xc6, 0x64, 0xec, 0x86, 0x57, 0x58, 0x18, 0xe8, 0xd7, 0x5f, 0xf2, 0x5c, 0x5f, 0x86, 0x72, 0x50, 0xdf, 0x89, 0x54, 0x08, 0x85, 0x49, 0xc4, 0x1c, 0x84, 0x8c, 0xd1, 0x0e, 0x76, 0xcb]

/-- `keccak256` of `"FheNe(address,bytes32,bytes32,bytes1,bytes32)"` (certified below). -/
def FHE_NE : List Nat :=
  [0x69, 0x60, 0xc1, 0xe8, 0x8f, 0x61, 0xc3, 0x52, 0xdb, 0xa3, 0x4d, 0x1b, 0xbf, 0x67, 0x53, 0xe3, 0x02, 0x79, 0x52, 0x64, 0xd5, 0xd8, 0xae, 0x82, 0xf7, 0x98, 0x3c, 0x70, 0x04, 0x65, 0x1e, 0x5d]

/-- `keccak256` of `"FheGe(address,bytes32,bytes32,bytes1,bytes32)"` (certified below). -/
def FHE_GE : List Nat :=
  [0x38, 0xc3, 0xa6, 0x3c, 0x42, 0x30, 0xde, 0x5b, 0x74, 0x1f, 0x49, 0x4f, 0xfb, 0x54, 0xe3, 0x08, 0x71, 0x04, 0x03, 0x02, 0x79, 0xbc, 0x7b, 0xcc, 0xee, 0x8a, 0xd9, 0xad, 0x31, 0x71, 0x2b, 0x21]

/-- `keccak256` of `"FheGt(address,bytes32,bytes32,bytes1,bytes32)"` (certified below). -/
def FHE_GT : List Nat :=
  [0xc9, 0xff, 0x8f, 0x0d, 0x18, 0xa3, 0xf7, 0x66, 0xce, 0x5d, 0xe3, 0xde, 0x21, 0x60, 0x76, 0x05, 0x01, 0x40, 0xe4, 0xfc, 0x26, 0x52, 0xf5, 0xe0, 0xe7, 0x45, 0xf6, 0xfc, 0x83, 0x6c, 0xda, 0x8b]

/-- `keccak256` of `"FheLe(address,bytes32,bytes32,bytes1,bytes32)"` (certified below). -/
def FHE_LE : List Nat :=
  [0xde, 0xf2, 0xe7, 0x04, 0xa0, 0x77, 0x28, 0x4a, 0x07, 0xf3, 0xd0, 0xb4, 0x36, 0xdb, 0x88, 0xf5, 0xd9, 0x81, 0xb6, 0x9f, 0x58, 0xab, 0x7c, 0x1a, 0xe6, 0x23, 0x25, 0x27, 0x18, 0xa6, 0xde, 0x01]

/-- `keccak256` of `"FheLt(address,bytes32,bytes32,bytes1,bytes32)"` (certified below). -/
def FHE_LT : List Nat :=
  [0x0d, 0x48, 0x3b, 0x10, 0x0d, 0x8c, 0x73, 0xb2, 0x08, 0x98, 0x4e, 0xc6, 0x97, 0xca, 0xa3, 0x09, 0x15, 0x21, 0xee, 0x55, 0x25, 0xce, 0x69, 0xed, 0xcf, 0x97, 0xd7, 0xe3, 0x95, 0xd3, 0xd0, 0x59]

/-- `keccak256` of `"FheMin(address,bytes32,bytes32,bytes1,bytes32)"` (certified below). -/
def FHE_MIN : List Nat :=
  [0xc1, 0x1d, 0x62, 0xb1, 0x3c, 0x36, 0x0a, 0x83, 0x08, 0x24, 0x87, 0x06, 0x4b, 0xe1, 0xec, 0x08, 0x78, 0xb2, 0xf0, 0xbe, 0x4f, 0x01, 0x2b, 0xf5, 0x9f, 0x89, 0xe1, 0x28, 0x06, 0x3d, 0x47, 0xff]

/-- `keccak256` of `"FheMax(address,bytes32,bytes32,bytes1,bytes32)"` (certified below). -/
def FHE_MAX : List Nat :=
  [0xfd, 0x7c, 0x92, 0x08, 0xf9, 0x56, 0xbf, 0x0c, 0x6a, 0xb7, 0x6a, 0x66, 0x7f, 0x04, 0x36, 0x12, 0x45, 0xad, 0x3e, 0x0a, 0x2d, 0x0e, 0xff, 0x92, 0xeb, 0x82, 0x7a, 0xcf, 0xcc, 0xa6, 0x8e, 0xa9]

/-- `keccak256` of `"FheNeg(address,bytes32,bytes32)"` (certified below). -/
def FHE_NEG : List Nat :=
  [0x8c, 0x66, 0x4d, 0x3c, 0x3c, 0xa5, 0x83, 0xfc, 0x58, 0x03, 0xb8, 0xa9, 0x1c, 0x49, 0x64, 0x4b, 0xbd, 0x95, 0x50, 0xbf, 0xa8, 0x79, 0x67, 0xc7, 0x3a, 0xd1, 0xde, 0x83, 0x02, 0x77, 0x68, 0xc0]

/-- `keccak256` of `"FheNot(address,bytes32,bytes32)"` (certified below). -/
def FHE_NOT : List Nat :=
  [0x55, 0xaf, 0xf4, 0xcc, 0x7a, 0x3d, 0x16, 0x0c, 0x83, 0xf1, 0xf1, 0x5b, 0x81, 0x80, 0x11, 0xed, 0xe8, 0x41, 0xa0, 0xb4, 0x59, 0x7f, 0xb1, 0x4d, 0xcd, 0x36, 0x03, 0xdf, 0x3a, 0x11, 0xe5, 0xe0]

/-- `keccak256` of `"TrivialEncrypt(address,uint256,uint8,bytes32)"` (certified below). -/
def TRIVIAL_ENCRYPT : List Nat :=
  [0x06, 0x3c, 0xcd, 0x1b, 0xba, 0x45, 0x15, 0x1d, 0x91, 0xf6, 0xa4, 0x18, 0x06, 0x50, 0x47, 0xa3, 0xd0, 0x48, 0xd0, 0x58, 0xa9, 0x22, 0x53, 0x57, 0x47, 0xbb, 0x2b, 0x57, 0x5a, 0x01, 0xd2, 0x36]

/-- `keccak256` of `"Cast(address,bytes32,uint8,bytes32)"` (certified below). -/
def CAST : List Nat :=
  [0x31, 0xcc, 0xae, 0x6a, 0x2f, 0x8e, 0x3c, 0xed, 0x16, 0x92, 0xf7, 0x7c, 0x8f, 0x66, 0x81, 0x33, 0xe4, 0xaf, 0xda, 0xaa, 0x35, 0xaf, 0xe8, 0x44, 0xff, 0x46, 0x59, 0xa6, 0xc2, 0x7e, 0x62, 0x7f]

/-- `keccak256` of `"FheIfThenElse(address,bytes32,bytes32,bytes32,bytes32)"` (certified below). -/
def FHE_IF_THEN_ELSE : List Nat :=
  [0x60, 0xbe, 0x9d, 0x61, 0xaa, 0xd8, 0x49, 0xfa, 0xcc, 0x28, 0xc3, 0x8b, 0x04, 0x8c, 0xb5, 0xc4, 0xbe, 0x34, 0x20, 0xb8, 0xfa, 0x22, 0x33, 0xe0, 0x8c, 0xfa, 0x06, 0xbe, 0x1b, 0x6d, 0x1c, 0x3e]

/-- `keccak256` of `"VerifyInput(address,bytes32,address,bytes,uint8,bytes32)"` (certified below). -/
def VERIFY_INPUT : List Nat :=
  [0xdc, 0x37, 0x0d, 0xb3, 0x35, 0x89, 0xe7, 0x33, 0x71, 0xdc, 0x3e, 0xe4, 0x2c, 0x78, 0x9c, 0x00, 0x3d, 0x33, 0x6e, 0xef, 0xcb, 0x7c, 0x3f, 0x56, 0xfe, 0x0f, 0x51, 0xae, 0x5b, 0x1d, 0x97, 0x02]

/-- `keccak256` of `"FheRand(address,uint8,bytes16,bytes32)"` (certified below). -/
def FHE_RAND : List Nat :=
  [0x0c, 0x8a, 0xca, 0x60, 0x17, 0x00, 0x33, 0x26, 0x05, 0x1e, 0x19, 0x91, 0x3e, 0xf0, 0x26, 0x31, 0xf2, 0x4b, 0x80, 0x11, 0x25, 0xe1, 0xfa, 0x8a, 0x1d, 0x81, 0x2e, 0x86, 0x83, 0x19, 0xfd, 0xa6]

/-- `keccak256` of `"FheRandBounded(address,uint256,uint8,bytes16,bytes32)"` (certified below). -/
def FHE_RAND_BOUNDED : List Nat :=
  [0x52, 0x22, 0xd9, 0x6b, 0x83, 0x67, 0x27, 0xa1, 0xd6, 0xfe, 0x1e, 0xe9, 0xae, 0xf2, 0x7f, 0x9b, 0xb5, 0x07, 0xbd, 0x41, 0x79, 0x4d, 0xef, 0xa3, 0x76, 0xff, 0x6c, 0x64, 0x8a, 0xaf, 0x8f, 0xf1]

/-- The canonical signature strings of `signatures.rs`, in declaration order. -/
def knownSignatureStrings : List String :=
  [r"FheAdd(address,bytes32,bytes32,bytes1,bytes32)",
   r"FheSub(address,bytes32,bytes32,bytes1,bytes32)",
   r"FheMul(address,bytes32,bytes32,bytes1,bytes32)",
   r"FheDiv(address,bytes32,bytes32,bytes1,bytes32)",
   r"FheRem(address,bytes32,bytes32,bytes1,bytes32)",
   r"FheBitAnd(address,bytes32,bytes32,bytes1,bytes32)",
   r"FheBitOr(address,bytes32,bytes32,bytes1,bytes32)",
   r"FheBitXor(address,bytes32,bytes32,bytes1,bytes32)",
   r"FheShl(address,bytes32,bytes32,bytes1,bytes32)",
   r"FheShr(address,bytes32,bytes32,bytes1,bytes32)",
   r"FheRotl(address,bytes32,bytes32,bytes1,bytes32)",
   r"FheRotr(address,bytes32,bytes32,bytes1,bytes32)",
   r"FheEq(address,bytes32,bytes32,bytes1,bytes32)",
   r"FheNe(address,bytes32,bytes32,bytes1,bytes32)",
   r"FheGe(address,bytes32,bytes32,bytes1,bytes32)",
   r"FheGt(address,bytes32,bytes32,bytes1,bytes32)",
   r"FheLe(address,bytes32,bytes32,bytes1,bytes32)",
   r"FheLt(address,bytes32,bytes32,bytes1,bytes32)",
   r"FheMin(address,bytes32,bytes32,bytes1,bytes32)",
   r"FheMax(address,bytes32,bytes32,bytes1,bytes32)",
   r"FheNeg(address,bytes32,bytes32)",
   r"FheNot(address,bytes32,bytes32)",
   r"TrivialEncrypt(address,uint256,uint8,bytes32)",
   r"Cast(address,bytes32,uint8,bytes32)",
   r"FheIfThenElse(address,bytes32,bytes32,bytes32,bytes32)",
   r"VerifyInput(address,bytes32,address,bytes,uint8,bytes32)",
   r"FheRand(address,uint8,bytes16,bytes32)",
   r"FheRandBounded(address,uint256,uint8,bytes16,bytes32)"]

/-- The registry of signature hashes, in declaration order. -/
def knownSigHashes : List (List Nat) :=
  [FHE_ADD, FHE_SUB, FHE_MUL, FHE_DIV, FHE_REM, FHE_BIT_AND, FHE_BIT_OR, FHE_BIT_XOR, FHE_SHL, FHE_SHR, FHE_ROTL, FHE_ROTR, FHE_EQ, FHE_NE, FHE_GE, FHE_GT, FHE_LE, FHE_LT, FHE_MIN, FHE_MAX, FHE_NEG, FHE_NOT, TRIVIAL_ENCRYPT, CAST, FHE_IF_THEN_ELSE, VERIFY_INPUT, FHE_RAND, FHE_RAND_BOUNDED]

/-- The operation name each registry entry identifies. -/
def knownEventNames : List String :=
  [r"FheAdd", r"FheSub", r"FheMul", r"FheDiv", r"FheRem", r"FheBitAnd", r"FheBitOr", r"FheBitXor", r"FheShl", r"FheShr", r"FheRotl", r"FheRotr", r"FheEq", r"FheNe", r"FheGe", r"FheGt", r"FheLe", r"FheLt", r"FheMin", r"FheMax", r"FheNeg", r"FheNot", r"TrivialEncrypt", r"Cast", r"FheIfThenElse", r"VerifyInput", r"FheRand", r"FheRandBounded"]

/-- `is_known_fhe_event` in `signatures.rs`: does `topic0` match any known
event signature. -/
def is_known_fhe_event (topic0 : List Nat) : Bool :=
  (topic0 == FHE_ADD) || (topic0 == FHE_SUB) || (topic0 == FHE_MUL) || (topic0 == FHE_DIV) ||
  (topic0 == FHE_REM) || (topic0 == FHE_BIT_AND) || (topic0 == FHE_BIT_OR) || (topic0 == FHE_BIT_XOR) ||
  (topic0 == FHE_SHL) || (topic0 == FHE_SHR) || (topic0 == FHE_ROTL) || (topic0 == FHE_ROTR) ||
  (topic0 == FHE_EQ) || (topic0 == FHE_NE) || (topic0 == FHE_GE) || (topic0 == FHE_GT) ||
  (topic0 == FHE_LE) || (topic0 == FHE_LT) || (topic0 == FHE_MIN) || (topic0 == FHE_MAX) ||
  (topic0 == FHE_NEG) || (topic0 == FHE_NOT) || (topic0 == TRIVIAL_ENCRYPT) || (topic0 == CAST) ||
  (topic0 == FHE_IF_THEN_ELSE) || (topic0 == VERIFY_INPUT) || (topic0 == FHE_RAND) ||
  (topic0 == FHE_RAND_BOUNDED)

/-- The registry lookup `identify(topic0) -> Option<OperationName>`: which
operation name a `topic0` identifies, following the dispatch order of
`parse_fhe_event`. -/
def identifyOp (topic0 : List Nat) : Option String :=
  if topic0 = FHE_ADD then some (r"FheAdd")
  else if topic0 = FHE_SUB then some (r"FheSub")
  else if topic0 = FHE_MUL then some (r"FheMul")
  else if topic0 = FHE_DIV then some (r"FheDiv")
  else if topic0 = FHE_REM then some (r"FheRem")
  else if topic0 = FHE_BIT_AND then some (r"FheBitAnd")
  else if topic0 = FHE_BIT_OR then some (r"FheBitOr")
  else if topic0 = FHE_BIT_XOR then some (r"FheBitXor")
  else if topic0 = FHE_SHL then some (r"FheShl")
  else if topic0 = FHE_SHR then some (r"FheShr")
  else if topic0 = FHE_ROTL then some (r"FheRotl")
  else if topic0 = FHE_ROTR then some (r"FheRotr")
  else if topic0 = FHE_EQ then some (r"FheEq")
  else if topic0 = FHE_NE then some (r"FheNe")
  else if topic0 = FHE_GE then some (r"FheGe")
  else if topic0 = FHE_GT then some (r"FheGt")
  else if topic0 = FHE_LE then some (r"FheLe")
  else if topic0 = FHE_LT then some (r"FheLt")
  else if topic0 = FHE_MIN then some (r"FheMin")
  else if topic0 = FHE_MAX then some (r"FheMax")
  else if topic0 = FHE_NEG then some (r"FheNeg")
  else if topic0 = FHE_NOT then some (r"FheNot")
  else if topic0 = TRIVIAL_ENCRYPT then some (r"TrivialEncrypt")
  else if topic0 = CAST then some (r"Cast")
  else if topic0 = FHE_IF_THEN_ELSE then some (r"FheIfThenElse")
  else if topic0 = VERIFY_INPUT then some (r"VerifyInput")
  else if topic0 = FHE_RAND then some (r"FheRand")
  else if topic0 = FHE_RAND_BOUNDED then some (r"FheRandBounded")
  else none

/-- `parse_binary_op`: layout lhs (32) + rhs (32) + scalarByte (32, padded,
value in the last byte) + result (32). -/
def parse_binary_op (op_type : BinaryOpType) (metadata : EventMetadata) (data : List Nat) :
    Option FheOperation :=
  if data.length < 128 then none
  else some (FheOperation.Binary
    { metadata, op_type, lhs := slice data 0 32, rhs := slice data 32 64,
      scalar_byte := data.getD 95 0, result := slice data 96 128 })

/-- `parse_unary_op`: layout ct (32) + result (32). -/
def parse_unary_op (op_type : UnaryOpType) (metadata : EventMetadata) (data : List Nat) :
    Option FheOperation :=
  if data.length < 64 then none
  else some (FheOperation.Unary
    { metadata, op_type, ct := slice data 0 32, result := slice data 32 64 })

/-- `parse_trivial_encrypt`: layout pt (32) + toType (32, padded u8) +
result (32); fails on an unrecognized type tag. -/
def parse_trivial_encrypt (metadata : EventMetadata) (data : List Nat) : Option FheOperation :=
  if data.length < 96 then none
  else
    match FheType.from_u8 (data.getD 63 0) with
    | none => none
    | some to_type => some (FheOperation.TrivialEncrypt
        { metadata, plaintext := beNat (slice data 0 32), to_type, result := slice data 64 96 })

/-- `parse_cast`: layout ct (32) + toType (32, padded u8) + result (32). -/
def parse_cast (metadata : EventMetadata) (data : List Nat) : Option FheOperation :=
  if data.length < 96 then none
  else
    match FheType.from_u8 (data.getD 63 0) with
    | none => none
    | some to_type => some (FheOperation.Cast
        { metadata, ct := slice data 0 32, to_type, result := slice data 64 96 })

/-- `parse_if_then_else`: layout control (32) + ifTrue (32) + ifFalse (32) +
result (32). -/
def parse_if_then_else (metadata : EventMetadata) (data : List Nat) : Option FheOperation :=
  if data.length < 128 then none
  else some (FheOperation.IfThenElse
    { metadata, control := slice data 0 32, if_true := slice data 32 64,
      if_false := slice data 64 96, result := slice data 96 128 })

/-- The ABI offset word of the VerifyInput dynamic proof (`data[64..96]`
big-endian). -/
def proofOffsetWord (data : List Nat) : Nat := beNat (slice data 64 96)

/-- The length word the VerifyInput proof decoding reads at the proof
offset. -/
def proofLenWord (data : List Nat) : Nat :=
  beNat (slice data (proofOffsetWord data) (proofOffsetWord data + 32))

/-- The dynamic-tail decoding inside `parse_verify_input`, with the aborts
of the Rust code made explicit: `U256::to::<usize>()` aborts when the
offset or length word is ≥ 2^64, `offset + 32` wrapping below `offset`
makes the subsequent slice indexing abort, and a wrapped `offset+32+len`
that passes the bounds check makes `data[offset+32..]` abort (start above
end).  All comparisons use the wrapped 64-bit values, as released Rust
does. -/
def verifyProofBytes (data : List Nat) : Panics (List Nat) :=
  if 160 < data.length then
    if 2 ^ 64 ≤ proofOffsetWord data then Panics.panicked
    else if 2 ^ 64 ≤ proofOffsetWord data + 32 then Panics.panicked
    else if proofOffsetWord data + 32 ≤ data.length then
      if 2 ^ 64 ≤ proofLenWord data then Panics.panicked
      else if (proofOffsetWord data + 32 + proofLenWord data) % 2 ^ 64 ≤ data.length then
        if proofOffsetWord data + 32 ≤ (proofOffsetWord data + 32 + proofLenWord data) % 2 ^ 64 then
          Panics.ok (slice data (proofOffsetWord data + 32)
            ((proofOffsetWord data + 32 + proofLenWord data) % 2 ^ 64))
        else Panics.panicked
      else Panics.ok []
    else Panics.ok []
  else Panics.ok []

/-- `parse_verify_input`: layout inputHandle (32) + userAddress (32,
padded, last 20 bytes) + proof offset (32) + inputType (32, padded u8) +
result (32), then the dynamic proof bytes. -/
def parse_verify_input (metadata : EventMetadata) (data : List Nat) :
    Panics (Option FheOperation) :=
  if data.length < 160 then Panics.ok none
  else
    match FheType.from_u8 (data.getD 127 0) with
    | none => Panics.ok none
    | some input_type =>
      match verifyProofBytes data with
      | Panics.panicked => Panics.panicked
      | Panics.ok input_proof => Panics.ok (some (FheOperation.VerifyInput
          { metadata, input_handle := slice data 0 32, user_address := slice data 44 64,
            input_proof, input_type, result := slice data 128 160 }))

/-- `parse_fhe_rand`: layout randType (32, padded u8) + seed (32, first 16
bytes) + result (32). -/
def parse_fhe_rand (metadata : EventMetadata) (data : List Nat) : Option FheOperation :=
  if data.length < 96 then none
  else
    match FheType.from_u8 (data.getD 31 0) with
    | none => none
    | some rand_type => some (FheOperation.Rand
        { metadata, rand_type, seed := slice data 32 48, result := slice data 64 96 })

/-- `parse_fhe_rand_bounded`: layout upperBound (32) + randType (32, padded
u8) + seed (32, first 16 bytes) + result (32). -/
def parse_fhe_rand_bounded (metadata : EventMetadata) (data : List Nat) : Option FheOperation :=
  if data.length < 128 then none
  else
    match FheType.from_u8 (data.getD 63 0) with
    | none => none
    | some rand_type => some (FheOperation.RandBounded
        { metadata, upper_bound := beNat (slice data 0 32), rand_type,
          seed := slice data 64 80, result := slice data 96 128 })

/-- The topic0 dispatch chain of `parse_fhe_event` (the `let operation =
if .. else if ..` body), with the unmatched case producing `Unknown`. -/
def parseDispatch (topic0 : List Nat) (metadata : EventMetadata) (data : List Nat) :
    Panics (Option FheOperation) :=
  if topic0 = FHE_ADD then Panics.ok (parse_binary_op BinaryOpType.Add metadata data)
  else if topic0 = FHE_SUB then Panics.ok (parse_binary_op BinaryOpType.Sub metadata data)
  else if topic0 = FHE_MUL then Panics.ok (parse_binary_op BinaryOpType.Mul metadata data)
  else if topic0 = FHE_DIV then Panics.ok (parse_binary_op BinaryOpType.Div metadata data)
  else if topic0 = FHE_REM then Panics.ok (parse_binary_op BinaryOpType.Rem metadata data)
  else if topic0 = FHE_BIT_AND then Panics.ok (parse_binary_op BinaryOpType.BitAnd metadata data)
  else if topic0 = FHE_BIT_OR then Panics.ok (parse_binary_op BinaryOpType.BitOr metadata data)
  else if topic0 = FHE_BIT_XOR then Panics.ok (parse_binary_op BinaryOpType.BitXor metadata data)
  else if topic0 = FHE_SHL then Panics.ok (parse_binary_op BinaryOpType.Shl metadata data)
  else if topic0 = FHE_SHR then Panics.ok (parse_binary_op BinaryOpType.Shr metadata data)
  else if topic0 = FHE_ROTL then Panics.ok (parse_binary_op BinaryOpType.Rotl metadata data)
  else if topic0 = FHE_ROTR then Panics.ok (parse_binary_op BinaryOpType.Rotr metadata data)
  else if topic0 = FHE_EQ then Panics.ok (parse_binary_op BinaryOpType.Eq metadata data)
  else if topic0 = FHE_NE then Panics.ok (parse_binary_op BinaryOpType.Ne metadata data)
  else if topic0 = FHE_GE then Panics.ok (parse_binary_op BinaryOpType.Ge metadata data)
  else if topic0 = FHE_GT then Panics.ok (parse_binary_op BinaryOpType.Gt metadata data)
  else if topic0 = FHE_LE then Panics.ok (parse_binary_op BinaryOpType.Le metadata data)
  else if topic0 = FHE_LT then Panics.ok (parse_binary_op BinaryOpType.Lt metadata data)
  else if topic0 = FHE_MIN then Panics.ok (parse_binary_op BinaryOpType.Min metadata data)
  else if topic0 = FHE_MAX then Panics.ok (parse_binary_op BinaryOpType.Max metadata data)
  else if topic0 = FHE_NEG then Panics.ok (parse_unary_op UnaryOpType.Neg metadata data)
  else if topic0 = FHE_NOT then Panics.ok (parse_unary_op UnaryOpType.Not metadata data)
  else if topic0 = TRIVIAL_ENCRYPT then Panics.ok (parse_trivial_encrypt metadata data)
  else if topic0 = CAST then Panics.ok (parse_cast metadata data)
  else if topic0 = FHE_IF_THEN_ELSE then Panics.ok (parse_if_then_else metadata data)
  else if topic0 = VERIFY_INPUT then parse_verify_input metadata data
  else if topic0 = FHE_RAND then Panics.ok (parse_fhe_rand metadata data)
  else if topic0 = FHE_RAND_BOUNDED then Panics.ok (parse_fhe_rand_bounded metadata data)
  else Panics.ok (some (FheOperation.Unknown topic0 data))

/-- `parse_fhe_event`: empty topics fail; otherwise build the metadata
(block number and log index defaulting to 0 when absent, caller from the
last 20 bytes of `topics[1]` or the zero address) and dispatch on topic0. -/
def parse_fhe_event (log : Log) : Panics (Option FheOperation) :=
  match log.topics with
  | [] => Panics.ok none
  | topic0 :: rest =>
    parseDispatch topic0
      { block_number := log.block_number.getD 0
        tx_hash := log.transaction_hash
        log_index := log.log_index.getD 0
        caller := match rest with
          | [] => List.replicate 20 0
          | t1 :: _ => t1.drop 12 }
      log.data

/-- The signature constant a binary operation kind dispatches from. -/
def binarySig : BinaryOpType → List Nat
  | BinaryOpType.Add => FHE_ADD
  | BinaryOpType.Sub => FHE_SUB
  | BinaryOpType.Mul => FHE_MUL
  | BinaryOpType.Div => FHE_DIV
  | BinaryOpType.Rem => FHE_REM
  | BinaryOpType.BitAnd => FHE_BIT_AND
  | BinaryOpType.BitOr => FHE_BIT_OR
  | BinaryOpType.BitXor => FHE_BIT_XOR
  | BinaryOpType.Shl => FHE_SHL
  | BinaryOpType.Shr => FHE_SHR
  | BinaryOpType.Rotl => FHE_ROTL
  | BinaryOpType.Rotr => FHE_ROTR
  | BinaryOpType.Eq => FHE_EQ
  | BinaryOpType.Ne => FHE_NE
  | BinaryOpType.Ge => FHE_GE
  | BinaryOpType.Gt => FHE_GT
  | BinaryOpType.Le => FHE_LE
  | BinaryOpType.Lt => FHE_LT
  | BinaryOpType.Min => FHE_MIN
  | BinaryOpType.Max => FHE_MAX

/-- The signature constant a unary operation kind dispatches from. -/
def unarySig : UnaryOpType → List Nat
  | UnaryOpType.Neg => FHE_NEG
  | UnaryOpType.Not => FHE_NOT

/-- The 128-byte binary-op payload of the specified layout: lhs = word 0,
rhs = word 1, scalar byte = last byte of word 2, result = word 3. -/
def mkBinaryPayload (lhs rhs : List Nat) (sb : Nat) (result : List Nat) : List Nat :=
  lhs ++ (rhs ++ ((List.replicate 31 0 ++ [sb]) ++ result))

/-- The caller the decoder recovers from a log: the last 20 bytes of
`topics[1]` when present, the zero address otherwise. -/
def expectedCaller (log : Log) : List Nat :=
  match log.topics with
  | _ :: t1 :: _ => t1.drop 12
  | _ => List.replicate 20 0

/-- The metadata the decoder derives from a log. -/
def expectedMetadata (log : Log) : EventMetadata :=
  { block_number := log.block_number.getD 0
    tx_hash := log.transaction_hash
    log_index := log.log_index.getD 0
    caller := expectedCaller log }


/-- Certification of the registry: each constant above is the Keccak-256
hash of its canonical signature string, in order — the embedded literal
table equals what `signatures.rs` computes at startup. -/
theorem sigHashes_eval : knownSignatureStrings.map keccakStr = knownSigHashes := by decide

/-- Dispatch lands each binary signature on its binary parser. -/
theorem dispatch_binary (op : BinaryOpType) (m : EventMetadata) (d : List Nat) :
    parseDispatch (binarySig op) m d = Panics.ok (parse_binary_op op m d) := by
  cases op <;> rfl

/-- Dispatch lands each unary signature on its unary parser. -/
theorem dispatch_unary (op : UnaryOpType) (m : EventMetadata) (d : List Nat) :
    parseDispatch (unarySig op) m d = Panics.ok (parse_unary_op op m d) := by
  cases op <;> rfl

/-- Dispatch lands the IfThenElse signature on its parser. -/
theorem dispatch_ite (m : EventMetadata) (d : List Nat) :
    parseDispatch FHE_IF_THEN_ELSE m d = Panics.ok (parse_if_then_else m d) := by rfl

/-- Dispatch lands the VerifyInput signature on its parser. -/
theorem dispatch_verify (m : EventMetadata) (d : List Nat) :
    parseDispatch VERIFY_INPUT m d = parse_verify_input m d := by rfl


/-- Dropping past an appended prefix drops into the suffix. -/
theorem drop_append_plus (xs ys : List Nat) (n : Nat) :
    (xs ++ ys).drop (xs.length + n) = ys.drop n := by
  induction xs with
  | nil => simp
  | cons a t ih => simpa [Nat.succ_add] using ih

/-- Taking exactly an appended prefix returns it. -/
theorem take_append_self (xs ys : List Nat) : (xs ++ ys).take xs.length = xs := by
  induction xs with
  | nil => simp
  | cons a t ih => simp [ih]

/-- `getD` is the default-valued head of the dropped list. -/
theorem getD_eq_head_drop (l : List Nat) (n : Nat) : l.getD n 0 = (l.drop n).headD 0 := by
  induction l generalizing n with
  | nil => cases n <;> rfl
  | cons a t ih => cases n with
    | zero => rfl
    | succ m => simpa using ih m

/-- The binary payload has length 128 when its parts are full words. -/
theorem mkBinaryPayload_length (lhs rhs result : List Nat) (sb : Nat)
    (h1 : lhs.length = 32) (h2 : rhs.length = 32) (h3 : result.length = 32) :
    (mkBinaryPayload lhs rhs sb result).length = 128 := by
  simp [mkBinaryPayload, h1, h2, h3]

/-- Parsing a synthetic binary payload recovers each chosen field. -/
theorem parse_binary_payload (op : BinaryOpType) (m : EventMetadata)
    (lhs rhs result : List Nat) (sb : Nat)
    (h1 : lhs.length = 32) (h2 : rhs.length = 32) (h3 : result.length = 32) :
    parse_binary_op op m (mkBinaryPayload lhs rhs sb result) =
      some (FheOperation.Binary
        { metadata := m, op_type := op, lhs := lhs, rhs := rhs,
          scalar_byte := sb, result := result }) := by
  have hlen := mkBinaryPayload_length lhs rhs result sb h1 h2 h3
  have hd32 : (mkBinaryPayload lhs rhs sb result).drop 32 =
      rhs ++ ((List.replicate 31 0 ++ [sb]) ++ result) := by
    have := drop_append_plus lhs (rhs ++ ((List.replicate 31 0 ++ [sb]) ++ result)) 0
    simpa [mkBinaryPayload, h1] using this
  have hd95 : (mkBinaryPayload lhs rhs sb result).drop 95 = sb :: result := by
    have e1 : (mkBinaryPayload lhs rhs sb result).drop 95 =
        ((mkBinaryPayload lhs rhs sb result).drop 32).drop 63 := by
      simp [List.drop_drop]
    rw [e1, hd32]
    have e2 : (rhs ++ ((List.replicate 31 0 ++ [sb]) ++ result)).drop 63 =
        ((List.replicate 31 0 ++ [sb]) ++ result).drop 31 := by
      have := drop_append_plus rhs ((List.replicate 31 0 ++ [sb]) ++ result) 31
      simpa [h2] using this
    rw [e2, List.append_assoc]
    have e3 : ((List.replicate 31 0 : List Nat) ++ ([sb] ++ result)).drop 31 =
        ([sb] ++ result).drop 0 := by
      have := drop_append_plus (List.replicate 31 0) ([sb] ++ result) 0
      simpa using this
    simpa using e3
  have e0 : slice (mkBinaryPayload lhs rhs sb result) 0 32 = lhs := by
    unfold slice mkBinaryPayload
    rw [List.drop_zero]
    have := take_append_self lhs (rhs ++ ((List.replicate 31 0 ++ [sb]) ++ result))
    simpa [h1] using this
  have e32 : slice (mkBinaryPayload lhs rhs sb result) 32 64 = rhs := by
    unfold slice
    rw [hd32]
    have := take_append_self rhs ((List.replicate 31 0 ++ [sb]) ++ result)
    simpa [h2] using this
  have e95 : (mkBinaryPayload lhs rhs sb result).getD 95 0 = sb := by
    rw [getD_eq_head_drop, hd95]
    rfl
  have e96 : slice (mkBinaryPayload lhs rhs sb result) 96 128 = result := by
    unfold slice
    have e1 : (mkBinaryPayload lhs rhs sb result).drop 96 = result := by
      have e2 : (mkBinaryPayload lhs rhs sb result).drop 96 =
          ((mkBinaryPayload lhs rhs sb result).drop 95).drop 1 := by
        simp [List.drop_drop]
      rw [e2, hd95]
      rfl
    rw [e1]
    have := take_append_self result []
    simpa [h3] using this
  unfold parse_binary_op
  rw [if_neg (by omega), e0, e32, e95, e96]


/-- The binary parser stores the metadata it was given. -/
theorem parse_binary_metadata (op : BinaryOpType) (m : EventMetadata) (d : List Nat)
    (o : FheOperation) (h : parse_binary_op op m d = some o) :
    operationMetadata o = some m := by
  unfold parse_binary_op at h
  split at h
  · exact Option.noConfusion h
  · injection h with h1
    subst h1
    rfl

/-- The unary parser stores the metadata it was given. -/
theorem parse_unary_metadata (op : UnaryOpType) (m : EventMetadata) (d : List Nat)
    (o : FheOperation) (h : parse_unary_op op m d = some o) :
    operationMetadata o = some m := by
  unfold parse_unary_op at h
  split at h
  · exact Option.noConfusion h
  · injection h with h1
    subst h1
    rfl

/-- The TrivialEncrypt parser stores the metadata it was given. -/
theorem parse_te_metadata (m : EventMetadata) (d : List Nat)
    (o : FheOperation) (h : parse_trivial_encrypt m d = some o) :
    operationMetadata o = some m := by
  unfold parse_trivial_encrypt at h
  split at h
  · exact Option.noConfusion h
  · split at h
    · exact Option.noConfusion h
    · injection h with h1
      subst h1
      rfl

/-- The Cast parser stores the metadata it was given. -/
theorem parse_cast_metadata (m : EventMetadata) (d : List Nat)
    (o : FheOperation) (h : parse_cast m d = some o) :
    operationMetadata o = some m := by
  unfold parse_cast at h
  split at h
  · exact Option.noConfusion h
  · split at h
    · exact Option.noConfusion h
    · injection h with h1
      subst h1
      rfl

/-- The IfThenElse parser stores the metadata it was given. -/
theorem parse_ite_metadata (m : EventMetadata) (d : List Nat)
    (o : FheOperation) (h : parse_if_then_else m d = some o) :
    operationMetadata o = some m := by
  unfold parse_if_then_else at h
  split at h
  · exact Option.noConfusion h
  · injection h with h1
    subst h1
    rfl

/-- The VerifyInput parser stores the metadata it was given. -/
theorem parse_verify_metadata (m : EventMetadata) (d : List Nat)
    (o : FheOperation) (h : parse_verify_input m d = Panics.ok (some o)) :
    operationMetadata o = some m := by
  unfold parse_verify_input at h
  split at h
  · injection h with h1
    exact Option.noConfusion h1
  · split at h
    · injection h with h1
      exact Option.noConfusion h1
    · split at h
      · exact Panics.noConfusion h
      · injection h with h1
        injection h1 with h2
        subst h2
        rfl

/-- The FheRand parser stores the metadata it was given. -/
theorem parse_rand_metadata (m : EventMetadata) (d : List Nat)
    (o : FheOperation) (h : parse_fhe_rand m d = some o) :
    operationMetadata o = some m := by
  unfold parse_fhe_rand at h
  split at h
  · exact Option.noConfusion h
  · split at h
    · exact Option.noConfusion h
    · injection h with h1
      subst h1
      rfl

/-- The FheRandBounded parser stores the metadata it was given. -/
theorem parse_randb_metadata (m : EventMetadata) (d : List Nat)
    (o : FheOperation) (h : parse_fhe_rand_bounded m d = some o) :
    operationMetadata o = some m := by
  unfold parse_fhe_rand_bounded at h
  split at h
  · exact Option.noConfusion h
  · split at h
    · exact Option.noConfusion h
    · injection h with h1
      subst h1
      rfl

/-- Any operation the dispatch produces is either `Unknown` (no metadata)
or carries exactly the metadata built from the log. -/
theorem dispatch_metadata (t0 : List Nat) (m : EventMetadata) (d : List Nat)
    (o : FheOperation) (h : parseDispatch t0 m d = Panics.ok (some o)) :
    operationMetadata o = none ∨ operationMetadata o = some m := by
  unfold parseDispatch at h
  rcases eq_or_ne t0 FHE_ADD with c1 | c1
  · rw [if_pos c1] at h
    injection h with h1
    exact Or.inr (parse_binary_metadata _ m d o h1)
  rw [if_neg c1] at h
  rcases eq_or_ne t0 FHE_SUB with c2 | c2
  · rw [if_pos c2] at h
    injection h with h1
    exact Or.inr (parse_binary_metadata _ m d o h1)
  rw [if_neg c2] at h
  rcases eq_or_ne t0 FHE_MUL with c3 | c3
  · rw [if_pos c3] at h
    injection h with h1
    exact Or.inr (parse_binary_metadata _ m d o h1)
  rw [if_neg c3] at h
  rcases eq_or_ne t0 FHE_DIV with c4 | c4
  · rw [if_pos c4] at h
    injection h with h1
    exact Or.inr (parse_binary_metadata _ m d o h1)
  rw [if_neg c4] at h
  rcases eq_or_ne t0 FHE_REM with c5 | c5
  · rw [if_pos c5] at h
    injection h with h1
    exact Or.inr (parse_binary_metadata _ m d o h1)
  rw [if_neg c5] at h
  rcases eq_or_ne t0 FHE_BIT_AND with c6 | c6
  · rw [if_pos c6] at h
    injection h with h1
    exact Or.inr (parse_binary_metadata _ m d o h1)
  rw [if_neg c6] at h
  rcases eq_or_ne t0 FHE_BIT_OR with c7 | c7
  · rw [if_pos c7] at h
    injection h with h1
    exact Or.inr (parse_binary_metadata _ m d o h1)
  rw [if_neg c7] at h
  rcases eq_or_ne t0 FHE_BIT_XOR with c8 | c8
  · rw [if_pos c8] at h
    injection h with h1
    exact Or.inr (parse_binary_metadata _ m d o h1)
  rw [if_neg c8] at h
  rcases eq_or_ne t0 FHE_SHL with c9 | c9
  · rw [if_pos c9] at h
    injection h with h1
    exact Or.inr (parse_binary_metadata _ m d o h1)
  rw [if_neg c9] at h
  rcases eq_or_ne t0 FHE_SHR with c10 | c10
  · rw [if_pos c10] at h
    injection h with h1
    exact Or.inr (parse_binary_metadata _ m d o h1)
  rw [if_neg c10] at h
  rcases eq_or_ne t0 FHE_ROTL with c11 | c11
  · rw [if_pos c11] at h
    injection h with h1
    exact Or.inr (parse_binary_metadata _ m d o h1)
  rw [if_neg c11] at h
  rcases eq_or_ne t0 FHE_ROTR with c12 | c12
  · rw [if_pos c12] at h
    injection h with h1
    exact Or.inr (parse_binary_metadata _ m d o h1)
  rw [if_neg c12] at h
  rcases eq_or_ne t0 FHE_EQ with c13 | c13
  · rw [if_pos c13] at h
    injection h with h1
    exact Or.inr (parse_binary_metadata _ m d o h1)
  rw [if_neg c13] at h
  rcases eq_or_ne t0 FHE_NE with c14 | c14
  · rw [if_pos c14] at h
    injection h with h1
    exact Or.inr (parse_binary_metadata _ m d o h1)
  rw [if_neg c14] at h
  rcases eq_or_ne t0 FHE_GE with c15 | c15
  · rw [if_pos c15] at h
    injection h with h1
    exact Or.inr (parse_binary_metadata _ m d o h1)
  rw [if_neg c15] at h
  rcases eq_or_ne t0 FHE_GT with c16 | c16
  · rw [if_pos c16] at h
    injection h with h1
    exact Or.inr (parse_binary_metadata _ m d o h1)
  rw [if_neg c16] at h
  rcases eq_or_ne t0 FHE_LE with c17 | c17
  · rw [if_pos c17] at h
    injection h with h1
    exact Or.inr (parse_binary_metadata _ m d o h1)
  rw [if_neg c17] at h
  rcases eq_or_ne t0 FHE_LT with c18 | c18
  · rw [if_pos c18] at h
    injection h with h1
    exact Or.inr (parse_binary_metadata _ m d o h1)
  rw [if_neg c18] at h
  rcases eq_or_ne t0 FHE_MIN with c19 | c19
  · rw [if_pos c19] at h
    injection h with h1
    exact Or.inr (parse_binary_metadata _ m d o h1)
  rw [if_neg c19] at h
  rcases eq_or_ne t0 FHE_MAX with c20 | c20
  · rw [if_pos c20] at h
    injection h with h1
    exact Or.inr (parse_binary_metadata _ m d o h1)
  rw [if_neg c20] at h
  rcases eq_or_ne t0 FHE_NEG with c21 | c21
  · rw [if_pos c21] at h
    injection h with h1
    exact Or.inr (parse_unary_metadata _ m d o h1)
  rw [if_neg c21] at h
  rcases eq_or_ne t0 FHE_NOT with c22 | c22
  · rw [if_pos c22] at h
    injection h with h1
    exact Or.inr (parse_unary_metadata _ m d o h1)
  rw [if_neg c22] at h
  rcases eq_or_ne t0 TRIVIAL_ENCRYPT with c23 | c23
  · rw [if_pos c23] at h
    injection h with h1
    exact Or.inr (parse_te_metadata m d o h1)
  rw [if_neg c23] at h
  rcases eq_or_ne t0 CAST with c24 | c24
  · rw [if_pos c24] at h
    injection h with h1
    exact Or.inr (parse_cast_metadata m d o h1)
  rw [if_neg c24] at h
  rcases eq_or_ne t0 FHE_IF_THEN_ELSE with c25 | c25
  · rw [if_pos c25] at h
    injection h with h1
    exact Or.inr (parse_ite_metadata m d o h1)
  rw [if_neg c25] at h
  rcases eq_or_ne t0 VERIFY_INPUT with c26 | c26
  · rw [if_pos c26] at h
    exact Or.inr (parse_verify_metadata m d o h)
  rw [if_neg c26] at h
  rcases eq_or_ne t0 FHE_RAND with c27 | c27
  · rw [if_pos c27] at h
    injection h with h1
    exact Or.inr (parse_rand_metadata m d o h1)
  rw [if_neg c27] at h
  rcases eq_or_ne t0 FHE_RAND_BOUNDED with c28 | c28
  · rw [if_pos c28] at h
    injection h with h1
    exact Or.inr (parse_randb_metadata m d o h1)
  rw [if_neg c28] at h
  injection h with h1
  injection h1 with h2
  subst h2
  exact Or.inl rfl

/-- The caller accessor is the caller field of the carried metadata. -/
theorem caller_eq_metadata (o : FheOperation) :
    FheOperation.caller o = (operationMetadata o).map EventMetadata.caller := by
  cases o <;> rfl

/-- With a non-empty topic list, decoding is dispatch on the head topic
with the derived metadata. -/
theorem parse_fhe_event_cons (log : Log) (t0 : List Nat) (rest : List (List Nat))
    (htop : log.topics = t0 :: rest) :
    parse_fhe_event log = parseDispatch t0 (expectedMetadata log) log.data := by
  unfold parse_fhe_event expectedMetadata expectedCaller
  rw [htop]
  cases rest <;> rfl


/-- With an empty topic list, decoding fails structurally (returns `none`). -/
theorem parse_fhe_event_nil (log : Log) (h : log.topics = []) :
    parse_fhe_event log = Panics.ok none := by
  unfold parse_fhe_event
  rw [h]

/-- Claim C1: for every binary operation kind and every choice of lhs, rhs,
scalar byte and result, decoding a log whose topic0 is that kind's
signature and whose data is the 128-byte payload (lhs = word 0, rhs =
word 1, scalar byte = last byte of word 2, result = word 3) yields a
Binary operation carrying exactly those values. -/
theorem parse_binary_roundtrip (op : BinaryOpType) (lhs rhs result : List Nat) (sb : Nat)
    (log : Log)
    (h1 : lhs.length = 32) (h2 : rhs.length = 32) (h3 : result.length = 32)
    (htop : ∃ rest, log.topics = binarySig op :: rest)
    (hdata : log.data = mkBinaryPayload lhs rhs sb result) :
    ∃ b : BinaryOp, parse_fhe_event log = Panics.ok (some (FheOperation.Binary b)) ∧
      b.op_type = op ∧ b.lhs = lhs ∧ b.rhs = rhs ∧ b.scalar_byte = sb ∧ b.result = result := by
  obtain ⟨rest, htop⟩ := htop
  rw [parse_fhe_event_cons log _ rest htop, dispatch_binary op _ log.data, hdata,
    parse_binary_payload op _ lhs rhs result sb h1 h2 h3]
  exact ⟨_, rfl, rfl, rfl, rfl, rfl, rfl⟩

/-- Witness for C1: a concrete FheAdd payload round-trips. -/
theorem parse_binary_roundtrip_witness :
    ∃ b : BinaryOp,
      parse_fhe_event
        { topics := [FHE_ADD],
          data := mkBinaryPayload (List.replicate 32 1) (List.replicate 32 2) 1
            (List.replicate 32 3),
          block_number := none, transaction_hash := none, log_index := none } =
        Panics.ok (some (FheOperation.Binary b)) ∧
      b.op_type = BinaryOpType.Add ∧ b.lhs = List.replicate 32 1 ∧
      b.rhs = List.replicate 32 2 ∧ b.scalar_byte = 1 ∧ b.result = List.replicate 32 3 :=
  parse_binary_roundtrip BinaryOpType.Add (List.replicate 32 1) (List.replicate 32 2)
    (List.replicate 32 3) 1 _ (by simp) (by simp) (by simp) ⟨[], rfl⟩ rfl

/-- Claim C5: with a binary-operation topic0, data of length exactly 127 is
a structural decode failure and data of length exactly 128 succeeds. -/
theorem binary_length_boundary (op : BinaryOpType) (log : Log)
    (htop : ∃ rest, log.topics = binarySig op :: rest) :
    (log.data.length = 127 → parse_fhe_event log = Panics.ok none) ∧
    (log.data.length = 128 →
      ∃ b : BinaryOp, parse_fhe_event log = Panics.ok (some (FheOperation.Binary b))) := by
  obtain ⟨rest, htop⟩ := htop
  rw [parse_fhe_event_cons log _ rest htop, dispatch_binary op _ log.data]
  constructor
  · intro h127
    unfold parse_binary_op
    rw [if_pos (by omega)]
  · intro h128
    unfold parse_binary_op
    rw [if_neg (by omega)]
    exact ⟨_, rfl⟩

/-- Witness for C5: concrete 127- and 128-byte FheSub logs. -/
theorem binary_length_boundary_witness :
    parse_fhe_event
      { topics := [FHE_SUB], data := List.replicate 127 0,
        block_number := none, transaction_hash := none, log_index := none } =
      Panics.ok none ∧
    ∃ b : BinaryOp,
      parse_fhe_event
        { topics := [FHE_SUB], data := List.replicate 128 0,
          block_number := none, transaction_hash := none, log_index := none } =
        Panics.ok (some (FheOperation.Binary b)) :=
  ⟨(binary_length_boundary BinaryOpType.Sub _ ⟨[], rfl⟩).1 (by simp),
   (binary_length_boundary BinaryOpType.Sub _ ⟨[], rfl⟩).2 (by simp)⟩

/-- Claim C10: for a binary, unary or IfThenElse topic0 with data meeting
the kind's minimum length (128, 64, 128), decoding succeeds for every
byte content: these layouts have no type-tag field to fail on. -/
theorem parse_min_length_total (log : Log) (t0 : List Nat) (rest : List (List Nat))
    (htop : log.topics = t0 :: rest)
    (hk : ((∃ op, t0 = binarySig op) ∧ 128 ≤ log.data.length) ∨
      ((∃ op, t0 = unarySig op) ∧ 64 ≤ log.data.length) ∨
      (t0 = FHE_IF_THEN_ELSE ∧ 128 ≤ log.data.length)) :
    ∃ op, parse_fhe_event log = Panics.ok (some op) := by
  rw [parse_fhe_event_cons log t0 rest htop]
  rcases hk with ⟨⟨op, hop⟩, hlen⟩ | ⟨⟨op, hop⟩, hlen⟩ | ⟨hop, hlen⟩
  · subst hop
    rw [dispatch_binary op _ log.data]
    unfold parse_binary_op
    rw [if_neg (by omega)]
    exact ⟨_, rfl⟩
  · subst hop
    rw [dispatch_unary op _ log.data]
    unfold parse_unary_op
    rw [if_neg (by omega)]
    exact ⟨_, rfl⟩
  · subst hop
    rw [dispatch_ite _ log.data]
    unfold parse_if_then_else
    rw [if_neg (by omega)]
    exact ⟨_, rfl⟩

/-- Witness for C10: an IfThenElse log with 128 arbitrary nonzero bytes. -/
theorem parse_min_length_total_witness :
    ∃ op, parse_fhe_event
      { topics := [FHE_IF_THEN_ELSE], data := List.replicate 128 5,
        block_number := none, transaction_hash := none, log_index := none } =
      Panics.ok (some op) :=
  parse_min_length_total _ FHE_IF_THEN_ELSE [] rfl (Or.inr (Or.inr ⟨rfl, by simp⟩))


/-- Claim C2: a log with a non-empty topic list whose topic0 matches no
known signature decodes, without error, to `Unknown` carrying that topic0
and the input data bytes unchanged. -/
theorem parse_unknown_preserves (log : Log) (t0 : List Nat) (rest : List (List Nat))
    (htop : log.topics = t0 :: rest) (hunk : t0 ∉ knownSigHashes) :
    parse_fhe_event log = Panics.ok (some (FheOperation.Unknown t0 log.data)) := by
  rw [parse_fhe_event_cons log t0 rest htop]
  unfold parseDispatch
  rw [if_neg (show t0 ≠ FHE_ADD from fun h => hunk (show t0 ∈ knownSigHashes by rw [h]; decide)),
    if_neg (show t0 ≠ FHE_SUB from fun h => hunk (show t0 ∈ knownSigHashes by rw [h]; decide)),
    if_neg (show t0 ≠ FHE_MUL from fun h => hunk (show t0 ∈ knownSigHashes by rw [h]; decide)),
    if_neg (show t0 ≠ FHE_DIV from fun h => hunk (show t0 ∈ knownSigHashes by rw [h]; decide)),
    if_neg (show t0 ≠ FHE_REM from fun h => hunk (show t0 ∈ knownSigHashes by rw [h]; decide)),
    if_neg (show t0 ≠ FHE_BIT_AND from fun h => hunk (show t0 ∈ knownSigHashes by rw [h]; decide)),
    if_neg (show t0 ≠ FHE_BIT_OR from fun h => hunk (show t0 ∈ knownSigHashes by rw [h]; decide)),
    if_neg (show t0 ≠ FHE_BIT_XOR from fun h => hunk (show t0 ∈ knownSigHashes by rw [h]; decide)),
    if_neg (show t0 ≠ FHE_SHL from fun h => hunk (show t0 ∈ knownSigHashes by rw [h]; decide)),
    if_neg (show t0 ≠ FHE_SHR from fun h => hunk (show t0 ∈ knownSigHashes by rw [h]; decide)),
    if_neg (show t0 ≠ FHE_ROTL from fun h => hunk (show t0 ∈ knownSigHashes by rw [h]; decide)),
    if_neg (show t0 ≠ FHE_ROTR from fun h => hunk (show t0 ∈ knownSigHashes by rw [h]; decide)),
    if_neg (show t0 ≠ FHE_EQ from fun h => hunk (show t0 ∈ knownSigHashes by rw [h]; decide)),
    if_neg (show t0 ≠ FHE_NE from fun h => hunk (show t0 ∈ knownSigHashes by rw [h]; decide)),
    if_neg (show t0 ≠ FHE_GE from fun h => hunk (show t0 ∈ knownSigHashes by rw [h]; decide)),
    if_neg (show t0 ≠ FHE_GT from fun h => hunk (show t0 ∈ knownSigHashes by rw [h]; decide)),
    if_neg (show t0 ≠ FHE_LE from fun h => hunk (show t0 ∈ knownSigHashes by rw [h]; decide)),
    if_neg (show t0 ≠ FHE_LT from fun h => hunk (show t0 ∈ knownSigHashes by rw [h]; decide)),
    if_neg (show t0 ≠ FHE_MIN from fun h => hunk (show t0 ∈ knownSigHashes by rw [h]; decide)),
    if_neg (show t0 ≠ FHE_MAX from fun h => hunk (show t0 ∈ knownSigHashes by rw [h]; decide)),
    if_neg (show t0 ≠ FHE_NEG from fun h => hunk (show t0 ∈ knownSigHashes by rw [h]; decide)),
    if_neg (show t0 ≠ FHE_NOT from fun h => hunk (show t0 ∈ knownSigHashes by rw [h]; decide)),
    if_neg (show t0 ≠ TRIVIAL_ENCRYPT from fun h => hunk (show t0 ∈ knownSigHashes by rw [h]; decide)),
    if_neg (show t0 ≠ CAST from fun h => hunk (show t0 ∈ knownSigHashes by rw [h]; decide)),
    if_neg (show t0 ≠ FHE_IF_THEN_ELSE from fun h => hunk (show t0 ∈ knownSigHashes by rw [h]; decide)),
    if_neg (show t0 ≠ VERIFY_INPUT from fun h => hunk (show t0 ∈ knownSigHashes by rw [h]; decide)),
    if_neg (show t0 ≠ FHE_RAND from fun h => hunk (show t0 ∈ knownSigHashes by rw [h]; decide)),
    if_neg (show t0 ≠ FHE_RAND_BOUNDED from fun h => hunk (show t0 ∈ knownSigHashes by rw [h]; decide))]

/-- Witness for C2: the all-zero topic0 (never a Keccak image in the
registry) preserves the data bytes. -/
theorem parse_unknown_preserves_witness :
    parse_fhe_event
      { topics := [List.replicate 32 0], data := [1, 2, 3],
        block_number := none, transaction_hash := none, log_index := none } =
      Panics.ok (some (FheOperation.Unknown (List.replicate 32 0) [1, 2, 3])) :=
  parse_unknown_preserves _ (List.replicate 32 0) [] rfl (by decide)


/-- Claim C6: the type tag constructor succeeds exactly for bytes 0–11,
byte 11 is the 256-byte blob tag (named ebytes256), byte 12 fails. -/
theorem fhetype_from_u8_range :
    (∀ b : Nat, (FheType.from_u8 b).isSome ↔ b < 12) ∧
    FheType.from_u8 11 = some FheType.Bytes256 ∧
    FheType.from_u8 12 = none ∧
    FheType.name FheType.Bytes256 = (r"ebytes256") := by
  refine ⟨?_, rfl, rfl, rfl⟩
  intro b
  match b with
  | 0 | 1 | 2 | 3 | 4 | 5 | 6 | 7 | 8 | 9 | 10 | 11 => simp [FheType.from_u8]
  | (n + 12) =>
    have h : FheType.from_u8 (n + 12) = none := rfl
    simp [h]

/-- Claim C7: the caller in any decoded operation's metadata is the last
20 bytes of topics[1] when a second topic is present, and the zero
address otherwise; the fallback is a successful decode. -/
theorem caller_recovery (log : Log) (op : FheOperation) (c : List Nat)
    (hp : parse_fhe_event log = Panics.ok (some op))
    (hc : FheOperation.caller op = some c) :
    c = expectedCaller log := by
  cases htop : log.topics with
  | nil =>
    rw [parse_fhe_event_nil log htop] at hp
    injection hp with h1
    exact Option.noConfusion h1
  | cons t0 rest =>
    rw [parse_fhe_event_cons log t0 rest htop] at hp
    rcases dispatch_metadata t0 _ log.data op hp with hmd | hmd
    · rw [caller_eq_metadata, hmd] at hc
      exact Option.noConfusion hc
    · rw [caller_eq_metadata, hmd] at hc
      injection hc with h1
      exact h1.symm

/-- Witness for C7: a single-topic log decodes successfully and recovers
the zero address. -/
theorem caller_recovery_witness :
    (List.replicate 20 0 : List Nat) = expectedCaller
      { topics := [FHE_NOT], data := List.replicate 64 9,
        block_number := none, transaction_hash := none, log_index := none } :=
  caller_recovery
    { topics := [FHE_NOT], data := List.replicate 64 9,
      block_number := none, transaction_hash := none, log_index := none }
    (FheOperation.Unary
      ⟨⟨0, none, 0, List.replicate 20 0⟩, UnaryOpType.Not, List.replicate 32 9,
        List.replicate 32 9⟩)
    (List.replicate 20 0) (by decide) (by decide)


/-- Claim C8 counterexample: a log whose source omitted the block number
and log index still decodes, and the decoder substitutes the fabricated
value 0 for both absent fields — beyond the sole zero-address-caller
exception the claim allows. -/
theorem metadata_default_zero_cex :
    parse_fhe_event
      { topics := [FHE_NEG], data := List.replicate 64 0,
        block_number := none, transaction_hash := none, log_index := none } =
      Panics.ok (some (FheOperation.Unary
        ⟨⟨0, none, 0, List.replicate 20 0⟩, UnaryOpType.Neg, List.replicate 32 0,
          List.replicate 32 0⟩)) := by decide

/-- Claim C8 (amended): every metadata field of a decoded operation is
derived from the corresponding log field; absent optional fields are
defaulted — the caller to the zero address, and an absent block number or
log index to 0 (only the transaction hash stays optional). -/
theorem metadata_derivation (log : Log) (op : FheOperation) (md : EventMetadata)
    (hp : parse_fhe_event log = Panics.ok (some op))
    (hm : operationMetadata op = some md) :
    md = expectedMetadata log := by
  cases htop : log.topics with
  | nil =>
    rw [parse_fhe_event_nil log htop] at hp
    injection hp with h1
    exact Option.noConfusion h1
  | cons t0 rest =>
    rw [parse_fhe_event_cons log t0 rest htop] at hp
    rcases dispatch_metadata t0 _ log.data op hp with hmd | hmd
    · rw [hm] at hmd
      exact Option.noConfusion hmd
    · rw [hm] at hmd
      injection hmd with h1

/-- Witness for C8 (amended): a log carrying all metadata fields decodes
with exactly the derived metadata. -/
theorem metadata_derivation_witness :
    (⟨7, some (List.replicate 32 4), 3, (List.replicate 12 0 ++ List.replicate 20 8 : List Nat).drop 12⟩ : EventMetadata) =
      expectedMetadata
        { topics := [FHE_NOT, List.replicate 12 0 ++ List.replicate 20 8],
          data := List.replicate 64 2, block_number := some 7,
          transaction_hash := some (List.replicate 32 4), log_index := some 3 } :=
  metadata_derivation
    { topics := [FHE_NOT, List.replicate 12 0 ++ List.replicate 20 8],
      data := List.replicate 64 2, block_number := some 7,
      transaction_hash := some (List.replicate 32 4), log_index := some 3 }
    (FheOperation.Unary
      ⟨⟨7, some (List.replicate 32 4), 3, (List.replicate 12 0 ++ List.replicate 20 8 : List Nat).drop 12⟩,
        UnaryOpType.Not, List.replicate 32 2, List.replicate 32 2⟩)
    ⟨7, some (List.replicate 32 4), 3, (List.replicate 12 0 ++ List.replicate 20 8 : List Nat).drop 12⟩
    (by decide) (by decide)


/-- Claim C3 counterexample: a 161-byte VerifyInput record whose proof
offset word is 2^65 — far outside the buffer — does not decode to an
empty proof: `U256::to::<usize>()` aborts the process on it. -/
theorem verify_input_oob_panics_cex :
    parse_verify_input ⟨0, none, 0, List.replicate 20 0⟩
      (List.replicate 64 0 ++
        ((List.replicate 23 0 ++ ([2] ++ List.replicate 8 0)) ++ List.replicate 65 0)) =
      Panics.panicked := by decide

/-- Claim C3 (amended): for a VerifyInput record of at least 160 bytes
with a valid type tag, an out-of-range proof offset or end — provided the
offset word plus 32 and, when the length word is read, offset + 32 +
length stay below 2^64, so that no usize conversion or wrap aborts —
decodes successfully with an empty proof and the fixed fields intact. -/
theorem verify_input_oob_empty_proof (m : EventMetadata) (data : List Nat) (ty : FheType)
    (h160 : 160 ≤ data.length)
    (htag : FheType.from_u8 (data.getD 127 0) = some ty)
    (hoob : proofOffsetWord data + 32 < 2 ^ 64 ∧
      (data.length < proofOffsetWord data + 32 ∨
        (proofOffsetWord data + 32 ≤ data.length ∧
          proofOffsetWord data + 32 + proofLenWord data < 2 ^ 64 ∧
          data.length < proofOffsetWord data + 32 + proofLenWord data))) :
    parse_verify_input m data = Panics.ok (some (FheOperation.VerifyInput
      ⟨m, slice data 0 32, slice data 44 64, [], ty, slice data 128 160⟩)) := by
  obtain ⟨hfit, hoob⟩ := hoob
  have hproof : verifyProofBytes data = Panics.ok [] := by
    unfold verifyProofBytes
    by_cases h161 : 160 < data.length
    case neg => rw [if_neg h161]
    case pos =>
      rw [if_pos h161, if_neg (show ¬(2 ^ 64 ≤ proofOffsetWord data) by omega),
        if_neg (show ¬(2 ^ 64 ≤ proofOffsetWord data + 32) by omega)]
      rcases hoob with hlt | ⟨hle, hfit2, hlt2⟩
      · rw [if_neg (show ¬(proofOffsetWord data + 32 ≤ data.length) by omega)]
      · rw [if_pos hle, if_neg (show ¬(2 ^ 64 ≤ proofLenWord data) by omega),
          Nat.mod_eq_of_lt hfit2,
          if_neg (show ¬(proofOffsetWord data + 32 + proofLenWord data ≤ data.length) by omega)]
  unfold parse_verify_input
  rw [if_neg (show ¬(data.length < 160) by omega), htag, hproof]

/-- Witness for C3 (amended): offset word 200 on a 161-byte record gives
an empty proof and intact fixed fields. -/
theorem verify_input_oob_empty_proof_witness :
    parse_verify_input ⟨0, none, 0, List.replicate 20 0⟩
      (List.replicate 64 0 ++ ((List.replicate 31 0 ++ [200]) ++ List.replicate 65 0)) =
      Panics.ok (some (FheOperation.VerifyInput
        ⟨⟨0, none, 0, List.replicate 20 0⟩,
          slice (List.replicate 64 0 ++ ((List.replicate 31 0 ++ [200]) ++ List.replicate 65 0)) 0 32,
          slice (List.replicate 64 0 ++ ((List.replicate 31 0 ++ [200]) ++ List.replicate 65 0)) 44 64,
          [], FheType.Bool,
          slice (List.replicate 64 0 ++ ((List.replicate 31 0 ++ [200]) ++ List.replicate 65 0)) 128 160⟩)) :=
  verify_input_oob_empty_proof ⟨0, none, 0, List.replicate 20 0⟩
    (List.replicate 64 0 ++ ((List.replicate 31 0 ++ [200]) ++ List.replicate 65 0))
    FheType.Bool (by decide) (by decide) (by decide)


/-- Claim C4 counterexample: a field-level failure is reported as a bare
`none` carrying neither topic0 nor data, and the decoder is not panic
free: a VerifyInput record whose proof offset word equals 2^64 makes it
abort. -/
theorem parse_failure_policy_cex :
    parse_fhe_event
      ⟨[FHE_ADD], List.replicate 127 7, none, none, none⟩ = Panics.ok none ∧
    parse_fhe_event
      ⟨[VERIFY_INPUT],
        List.replicate 64 0 ++
          ((List.replicate 23 0 ++ ([1] ++ List.replicate 8 0)) ++ List.replicate 65 0),
        none, none, none⟩ = Panics.panicked := by decide

/-- Claim C4 (amended): a field-level decode failure is reported as a
per-record `none` (carrying no payload), and the decoder can abort, but
only on a VerifyInput log of more than 160 data bytes whose proof offset
or length word overflows 64-bit machine arithmetic. -/
theorem parse_panic_confined (log : Log)
    (hp : parse_fhe_event log = Panics.panicked) :
    log.topics.head? = some VERIFY_INPUT ∧ 160 < log.data.length ∧
      (2 ^ 64 ≤ proofOffsetWord log.data + 32 ∨
        2 ^ 64 ≤ proofOffsetWord log.data + 32 + proofLenWord log.data) := by
  cases htop : log.topics with
  | nil =>
    rw [parse_fhe_event_nil log htop] at hp
    exact Panics.noConfusion hp
  | cons t0 rest =>
    rw [parse_fhe_event_cons log t0 rest htop] at hp
    unfold parseDispatch at hp
    rcases eq_or_ne t0 FHE_ADD with c1 | c1
    · rw [if_pos c1] at hp
      exact Panics.noConfusion hp
    rw [if_neg c1] at hp
    rcases eq_or_ne t0 FHE_SUB with c2 | c2
    · rw [if_pos c2] at hp
      exact Panics.noConfusion hp
    rw [if_neg c2] at hp
    rcases eq_or_ne t0 FHE_MUL with c3 | c3
    · rw [if_pos c3] at hp
      exact Panics.noConfusion hp
    rw [if_neg c3] at hp
    rcases eq_or_ne t0 FHE_DIV with c4 | c4
    · rw [if_pos c4] at hp
      exact Panics.noConfusion hp
    rw [if_neg c4] at hp
    rcases eq_or_ne t0 FHE_REM with c5 | c5
    · rw [if_pos c5] at hp
      exact Panics.noConfusion hp
    rw [if_neg c5] at hp
    rcases eq_or_ne t0 FHE_BIT_AND with c6 | c6
    · rw [if_pos c6] at hp
      exact Panics.noConfusion hp
    rw [if_neg c6] at hp
    rcases eq_or_ne t0 FHE_BIT_OR with c7 | c7
    · rw [if_pos c7] at hp
      exact Panics.noConfusion hp
    rw [if_neg c7] at hp
    rcases eq_or_ne t0 FHE_BIT_XOR with c8 | c8
    · rw [if_pos c8] at hp
      exact Panics.noConfusion hp
    rw [if_neg c8] at hp
    rcases eq_or_ne t0 FHE_SHL with c9 | c9
    · rw [if_pos c9] at hp
      exact Panics.noConfusion hp
    rw [if_neg c9] at hp
    rcases eq_or_ne t0 FHE_SHR with c10 | c10
    · rw [if_pos c10] at hp
      exact Panics.noConfusion hp
    rw [if_neg c10] at hp
    rcases eq_or_ne t0 FHE_ROTL with c11 | c11
    · rw [if_pos c11] at hp
      exact Panics.noConfusion hp
    rw [if_neg c11] at hp
    rcases eq_or_ne t0 FHE_ROTR with c12 | c12
    · rw [if_pos c12] at hp
      exact Panics.noConfusion hp
    rw [if_neg c12] at hp
    rcases eq_or_ne t0 FHE_EQ with c13 | c13
    · rw [if_pos c13] at hp
      exact Panics.noConfusion hp
    rw [if_neg c13] at hp
    rcases eq_or_ne t0 FHE_NE with c14 | c14
    · rw [if_pos c14] at hp
      exact Panics.noConfusion hp
    rw [if_neg c14] at hp
    rcases eq_or_ne t0 FHE_GE with c15 | c15
    · rw [if_pos c15] at hp
      exact Panics.noConfusion hp
    rw [if_neg c15] at hp
    rcases eq_or_ne t0 FHE_GT with c16 | c16
    · rw [if_pos c16] at hp
      exact Panics.noConfusion hp
    rw [if_neg c16] at hp
    rcases eq_or_ne t0 FHE_LE with c17 | c17
    · rw [if_pos c17] at hp
      exact Panics.noConfusion hp
    rw [if_neg c17] at hp
    rcases eq_or_ne t0 FHE_LT with c18 | c18
    · rw [if_pos c18] at hp
      exact Panics.noConfusion hp
    rw [if_neg c18] at hp
    rcases eq_or_ne t0 FHE_MIN with c19 | c19
    · rw [if_pos c19] at hp
      exact Panics.noConfusion hp
    rw [if_neg c19] at hp
    rcases eq_or_ne t0 FHE_MAX with c20 | c20
    · rw [if_pos c20] at hp
      exact Panics.noConfusion hp
    rw [if_neg c20] at hp
    rcases eq_or_ne t0 FHE_NEG with c21 | c21
    · rw [if_pos c21] at hp
      exact Panics.noConfusion hp
    rw [if_neg c21] at hp
    rcases eq_or_ne t0 FHE_NOT with c22 | c22
    · rw [if_pos c22] at hp
      exact Panics.noConfusion hp
    rw [if_neg c22] at hp
    rcases eq_or_ne t0 TRIVIAL_ENCRYPT with c23 | c23
    · rw [if_pos c23] at hp
      exact Panics.noConfusion hp
    rw [if_neg c23] at hp
    rcases eq_or_ne t0 CAST with c24 | c24
    · rw [if_pos c24] at hp
      exact Panics.noConfusion hp
    rw [if_neg c24] at hp
    rcases eq_or_ne t0 FHE_IF_THEN_ELSE with c25 | c25
    · rw [if_pos c25] at hp
      exact Panics.noConfusion hp
    rw [if_neg c25] at hp
    rcases eq_or_ne t0 VERIFY_INPUT with c26 | c26
    · rw [if_pos c26] at hp
      unfold parse_verify_input at hp
      by_cases hlen : log.data.length < 160
      · rw [if_pos hlen] at hp
        exact Panics.noConfusion hp
      rw [if_neg hlen] at hp
      cases htag : FheType.from_u8 (log.data.getD 127 0) with
      | none =>
        rw [htag] at hp
        exact Panics.noConfusion hp
      | some ty =>
        rw [htag] at hp
        cases hv : verifyProofBytes log.data with
        | ok p =>
          rw [hv] at hp
          exact Panics.noConfusion hp
        | panicked =>
          unfold verifyProofBytes at hv
          by_cases h160 : 160 < log.data.length
          case neg =>
            rw [if_neg h160] at hv
            exact Panics.noConfusion hv
          case pos =>
          rw [if_pos h160] at hv
          refine ⟨by simp [htop, c26], h160, ?_⟩
          by_cases ho1 : 2 ^ 64 ≤ proofOffsetWord log.data
          · exact Or.inl (by omega)
          rw [if_neg ho1] at hv
          by_cases ho2 : 2 ^ 64 ≤ proofOffsetWord log.data + 32
          · exact Or.inl ho2
          rw [if_neg ho2] at hv
          by_cases ho3 : proofOffsetWord log.data + 32 ≤ log.data.length
          case neg =>
            rw [if_neg ho3] at hv
            exact Panics.noConfusion hv
          case pos =>
          rw [if_pos ho3] at hv
          by_cases hl1 : 2 ^ 64 ≤ proofLenWord log.data
          · exact Or.inr (by omega)
          rw [if_neg hl1] at hv
          by_cases he : (proofOffsetWord log.data + 32 + proofLenWord log.data) % 2 ^ 64 ≤ log.data.length
          case neg =>
            rw [if_neg he] at hv
            exact Panics.noConfusion hv
          case pos =>
          rw [if_pos he] at hv
          by_cases hse : proofOffsetWord log.data + 32 ≤ (proofOffsetWord log.data + 32 + proofLenWord log.data) % 2 ^ 64
          · rw [if_pos hse] at hv
            exact Panics.noConfusion hv
          · refine Or.inr ?_
            by_contra hc
            push_neg at hc
            have hmod := Nat.mod_eq_of_lt (show proofOffsetWord log.data + 32 + proofLenWord log.data < 2 ^ 64 by omega)
            omega
    rw [if_neg c26] at hp
    rcases eq_or_ne t0 FHE_RAND with c27 | c27
    · rw [if_pos c27] at hp
      exact Panics.noConfusion hp
    rw [if_neg c27] at hp
    rcases eq_or_ne t0 FHE_RAND_BOUNDED with c28 | c28
    · rw [if_pos c28] at hp
      exact Panics.noConfusion hp
    rw [if_neg c28] at hp
    exact Panics.noConfusion hp

/-- Witness for C4 (amended): the containment applied to a concrete
aborting log (proof offset word 2^70). -/
theorem parse_panic_confined_witness :
    (⟨[VERIFY_INPUT],
      List.replicate 64 0 ++
        ((List.replicate 23 0 ++ ([64] ++ List.replicate 8 0)) ++ List.replicate 65 0),
      none, none, none⟩ : Log).topics.head? = some VERIFY_INPUT ∧
    160 < (⟨[VERIFY_INPUT],
      List.replicate 64 0 ++
        ((List.replicate 23 0 ++ ([64] ++ List.replicate 8 0)) ++ List.replicate 65 0),
      none, none, none⟩ : Log).data.length ∧
    (2 ^ 64 ≤ proofOffsetWord (⟨[VERIFY_INPUT],
      List.replicate 64 0 ++
        ((List.replicate 23 0 ++ ([64] ++ List.replicate 8 0)) ++ List.replicate 65 0),
      none, none, none⟩ : Log).data + 32 ∨
      2 ^ 64 ≤ proofOffsetWord (⟨[VERIFY_INPUT],
        List.replicate 64 0 ++
          ((List.replicate 23 0 ++ ([64] ++ List.replicate 8 0)) ++ List.replicate 65 0),
        none, none, none⟩ : Log).data + 32 + proofLenWord (⟨[VERIFY_INPUT],
        List.replicate 64 0 ++
          ((List.replicate 23 0 ++ ([64] ++ List.replicate 8 0)) ++ List.replicate 65 0),
        none, none, none⟩ : Log).data) :=
  parse_panic_confined
    ⟨[VERIFY_INPUT],
      List.replicate 64 0 ++
        ((List.replicate 23 0 ++ ([64] ++ List.replicate 8 0)) ++ List.replicate 65 0),
      none, none, none⟩ (by decide)


/-- Claim C9 counterexample: the registry holds 28 canonical signature
strings (20 binary + 2 unary + 6 special), not 29. -/
theorem registry_count_cex :
    knownSignatureStrings.length = 28 ∧ knownSigHashes.length = 28 ∧
      knownSignatureStrings.length ≠ 29 := by decide

/-- Claim C9 (amended): for every one of the 28 known signature strings,
identifying its Keccak-256 hash names exactly that operation, no two
distinct known signature strings hash to the same 32-byte value, and
dispatch on each kind's hash selects that kind's layout decoder. -/
theorem registry_hash_identify :
    (knownSignatureStrings.map keccakStr).Nodup ∧
    (knownSignatureStrings.map keccakStr).map identifyOp = knownEventNames.map some ∧
    (∀ (op : BinaryOpType) (m : EventMetadata) (d : List Nat),
      parseDispatch (binarySig op) m d = Panics.ok (parse_binary_op op m d)) ∧
    (∀ (op : UnaryOpType) (m : EventMetadata) (d : List Nat),
      parseDispatch (unarySig op) m d = Panics.ok (parse_unary_op op m d)) ∧
    (∀ (m : EventMetadata) (d : List Nat),
      parseDispatch TRIVIAL_ENCRYPT m d = Panics.ok (parse_trivial_encrypt m d)) ∧
    (∀ (m : EventMetadata) (d : List Nat),
      parseDispatch CAST m d = Panics.ok (parse_cast m d)) ∧
    (∀ (m : EventMetadata) (d : List Nat),
      parseDispatch FHE_IF_THEN_ELSE m d = Panics.ok (parse_if_then_else m d)) ∧
    (∀ (m : EventMetadata) (d : List Nat),
      parseDispatch VERIFY_INPUT m d = parse_verify_input m d) ∧
    (∀ (m : EventMetadata) (d : List Nat),
      parseDispatch FHE_RAND m d = Panics.ok (parse_fhe_rand m d)) ∧
    (∀ (m : EventMetadata) (d : List Nat),
      parseDispatch FHE_RAND_BOUNDED m d = Panics.ok (parse_fhe_rand_bounded m d)) := by
  refine ⟨?_, ?_, dispatch_binary, dispatch_unary, ?_, ?_, dispatch_ite, dispatch_verify, ?_, ?_⟩
  · rw [sigHashes_eval]
    decide
  · rw [sigHashes_eval]
    decide
  · intro m d
    rfl
  · intro m d
    rfl
  · intro m d
    rfl
  · intro m d
    rfl

end FheEv
